import Mathlib

/-!
Verification development for the TGV punctuality dashboard's filtering,
aggregation and derived-metric layer (`src/utils/compute.py`,
`src/utils/prep.py`, `src/utils/quality.py`).

Embedding conventions:
* A pandas DataFrame of canonical records is a `List Row`; a row's nullable
  numeric cells are `Option` values (`none` = missing/NaN).
* Nullable integer counts (pandas `Int64`) are `Option ℤ`; float columns are
  `Option ℚ` (exact rationals stand in for IEEE doubles; every float literal
  of the source, such as `1e-9`, is read as the exact rational it denotes).
* A NaN-producing arithmetic result is `none`; pandas `fillna(0)` is `fillZ` /
  `fillQ`; pandas sum/mean skip missing values exactly as the source does.
* `date` is the month index of the month-start timestamp (one value per
  calendar month, ordered like the timestamps).
* Python string comparison is code-point lexicographic, embedded as the
  lexicographic order on `String.data` (`strLt`/`strLe`), which is exactly
  Lean's `String.lt` but with a kernel-computable decision procedure.
* pandas `groupby(key)` sorts the group keys ascending and keeps row order
  inside each group; `sort_values` is embedded as a stable sort
  (`List.insertionSort`) with NaN placed last (`na_position="last"`). The
  source's default quicksort is unstable on ties, so this is a
  determinization: theorems assert only tie-order-insensitive consequences
  of the sort (sortedness, permutation, the head/tail split) about the
  program.
-/

/-- Missing-as-zero view of a nullable integer cell (pandas `fillna(0)`). -/
def fillZ : Option ℤ → ℤ
  | none => 0
  | some v => v

/-- Missing-as-zero view of a nullable rational cell (pandas `fillna(0)`). -/
def fillQ : Option ℚ → ℚ
  | none => 0
  | some v => v

/-- Code-point lexicographic strict order on strings, Python's `<` on `str`.
This is `String.lt` (which is defined as `List.lt` on `data`), restated so
that its `Decidable` instance reduces in the kernel. -/
def strLt (a b : String) : Prop := a.data < b.data

instance : DecidableRel strLt := fun a b => inferInstanceAs (Decidable (a.data < b.data))

/-- Code-point lexicographic order on strings, Python's `<=` on `str`. -/
def strLe (a b : String) : Prop := a.data < b.data ∨ a = b

instance : DecidableRel strLe := fun a b => inferInstanceAs (Decidable (a.data < b.data ∨ a = b))

/-- One row of the cleaned canonical table (`prep.clean` output), restricted to
the columns the aggregation layer reads. `check_*` flag columns,
departure-side delay columns and the per-row `cancel_rate_pct` column are
omitted: no aggregation operation under verification reads them. -/
structure Row where
  date : ℕ
  service : String
  departure : String
  arrival : String
  duration_class : String
  liaison : String
  planned : Option ℤ
  canceled : Option ℤ
  circulated : Option ℤ
  late_arr_count : Option ℤ
  late_over_15_count : Option ℤ
  late_over_30_count : Option ℤ
  late_over_60_count : Option ℤ
  avg_delay_arr_delayed_min : Option ℚ
  pct_cause_external : Option ℚ
  pct_cause_infra : Option ℚ
  pct_cause_traffic : Option ℚ
  pct_cause_rollingstock : Option ℚ
  pct_cause_station_reuse : Option ℚ
  pct_cause_passengers : Option ℚ
deriving DecidableEq

/-- One raw row as fed to `prep.clean`, with columns already renamed to the
canonical names (the rename map is a fixed bijection and the date is already
parsed; both steps are outside the claims under verification). -/
structure RawRow where
  date : ℕ
  service : String
  departure : String
  arrival : String
  avg_duration_min : Option ℚ
  planned : Option ℤ
  canceled : Option ℤ
  late_arr_count : Option ℤ
  late_over_15_count : Option ℤ
  late_over_30_count : Option ℤ
  late_over_60_count : Option ℤ
  avg_delay_arr_delayed_min : Option ℚ
  pct_cause_external : Option ℚ
  pct_cause_infra : Option ℚ
  pct_cause_traffic : Option ℚ
  pct_cause_rollingstock : Option ℚ
  pct_cause_station_reuse : Option ℚ
  pct_cause_passengers : Option ℚ
deriving DecidableEq

/-- Duration-class thresholds of `prep._duration_class`. -/
def durationClassOf : Option ℚ → String
  | none => "unknown"
  | some m => if m < 90 then "< 1h30" else if m ≤ 180 then "1h30–3h" else "> 3h"

/-- Arrow separator of the directed liaison key built by `prep.clean`. -/
def arrowSep : String := " → "

/-- Per-row part of `prep.clean`: derived `liaison`, `duration_class` and
`circulated = (planned.fillna(0) - canceled.fillna(0)).clip(lower=0)`. -/
def cleanRow (x : RawRow) : Row :=
  { date := x.date
    service := x.service
    departure := x.departure
    arrival := x.arrival
    duration_class := durationClassOf x.avg_duration_min
    liaison := x.departure ++ arrowSep ++ x.arrival
    planned := x.planned
    canceled := x.canceled
    circulated := some (max (fillZ x.planned - fillZ x.canceled) 0)
    late_arr_count := x.late_arr_count
    late_over_15_count := x.late_over_15_count
    late_over_30_count := x.late_over_30_count
    late_over_60_count := x.late_over_60_count
    avg_delay_arr_delayed_min := x.avg_delay_arr_delayed_min
    pct_cause_external := x.pct_cause_external
    pct_cause_infra := x.pct_cause_infra
    pct_cause_traffic := x.pct_cause_traffic
    pct_cause_rollingstock := x.pct_cause_rollingstock
    pct_cause_station_reuse := x.pct_cause_station_reuse
    pct_cause_passengers := x.pct_cause_passengers }

/-- The cleaning pass `prep.clean` on a whole raw table. -/
def clean (raw : List RawRow) : List Row := raw.map cleanRow

/-- Filter state consumed by `compute.apply_overview_filters`: the session
keys it reads. `date_start`/`date_end` hold parsed month indices, `none`
standing for an unparseable bound (`pd.to_datetime(..., errors="coerce")`
giving `NaT`, which makes every date comparison false). -/
structure Session where
  date_start : Option ℕ
  date_end : Option ℕ
  service : List String
  duration_class : List String
  departures : List String
  arrivals : List String
  treat_bidirectional : Bool

/-- Date-range mask `compute._between_ym`: inclusive on both bounds, false
everywhere when either bound failed to parse. -/
def betweenYM (s : Session) (r : Row) : Bool :=
  match s.date_start, s.date_end with
  | some a, some b => decide (a ≤ r.date) && decide (r.date ≤ b)
  | _, _ => false

/-- Station part of the row mask of `compute.apply_overview_filters`
(lines 29–43): nothing when both selections are empty; otherwise either
endpoint-matching in bidirectional mode or exact per-column membership. -/
def stationMask (s : Session) (r : Row) : Bool :=
  if s.departures.isEmpty && s.arrivals.isEmpty then true
  else if s.treat_bidirectional then
    (if s.departures.isEmpty then true
     else s.departures.contains r.departure || s.departures.contains r.arrival) &&
    (if s.arrivals.isEmpty then true
     else s.arrivals.contains r.departure || s.arrivals.contains r.arrival)
  else
    (if s.departures.isEmpty then true else s.departures.contains r.departure) &&
    (if s.arrivals.isEmpty then true else s.arrivals.contains r.arrival)

/-- Non-station part of the row mask of `compute.apply_overview_filters`:
date range, optional service and duration-class memberships (lines 22–26). -/
def baseMask (s : Session) (r : Row) : Bool :=
  betweenYM s r &&
  (if s.service.isEmpty then true else s.service.contains r.service) &&
  (if s.duration_class.isEmpty then true else s.duration_class.contains r.duration_class)

/-- Full row mask of `compute.apply_overview_filters`. -/
def rowMask (s : Session) (r : Row) : Bool :=
  baseMask s r && stationMask s r

/-- The Filter Engine `compute.apply_overview_filters`. -/
def apply_overview_filters (rows : List Row) (s : Session) : List Row :=
  rows.filter (fun r => rowMask s r)

/-- Skip-missing sum of an integer column with missing read as zero (pandas
`fillna(0).sum()`, and also `groupby(...).agg("sum")`, which skips NaN). -/
def sumZ (f : Row → Option ℤ) (rows : List Row) : ℤ :=
  (rows.map (fun r => fillZ (f r))).sum

/-- Skip-missing mean of a float column (pandas `mean`): `none` when every
value of the column is missing in the group. -/
def meanQ (f : Row → Option ℚ) (rows : List Row) : Option ℚ :=
  let vs := rows.filterMap f
  if vs.isEmpty then none else some (vs.sum / (vs.length : ℚ))

/-- Weight of a row in the delay-weighted means: `late_arr_count.fillna(0)`
cast to float. -/
def wOf (r : Row) : ℚ := ((fillZ r.late_arr_count : ℤ) : ℚ)

/-- Total weight `late_arr_count.fillna(0).sum()` of a record set. -/
def sumW (rows : List Row) : ℚ := (rows.map wOf).sum

/-- Numerator `(delays * weights).sum()` of the weighted delay mean of
`compute.kpis_overview`: `delays` keeps NaN (plain `astype(float)`), so a row
with a missing delay contributes nothing to this sum (pandas `sum` skips NaN)
while still contributing its weight to `sumW`. -/
def delayNum (rows : List Row) : ℚ :=
  (rows.map (fun r =>
    match r.avg_delay_arr_delayed_min with
    | some d => d * wOf r
    | none => 0)).sum

/-- On-time percentage from group sums, the guarded formula
`np.where(circulated > 0, (circulated - late)/circulated*100, nan)` shared by
`kpis_overview`, `monthly_series`, `duration_small_multiples`,
`liaison_ranking` and `liaison_summary`. -/
def onTimeOfSums (circ late : ℤ) : Option ℚ :=
  if 0 < circ then some ((((circ - late : ℤ)) : ℚ) / ((circ : ℤ) : ℚ) * 100) else none

/-- Cancel-rate percentage from group sums, `canceled / planned * 100` guarded
by `planned > 0`. -/
def cancelOfSums (canc plan : ℤ) : Option ℚ :=
  if 0 < plan then some (((canc : ℤ) : ℚ) / ((plan : ℤ) : ℚ) * 100) else none

/-- Late-rate percentage from group sums, `late / circulated * 100` guarded by
`circulated > 0` (`liaison_summary` only). -/
def lateRateOfSums (late circ : ℤ) : Option ℚ :=
  if 0 < circ then some (((late : ℤ) : ℚ) / ((circ : ℤ) : ℚ) * 100) else none

/-- Result record of `compute.kpis_overview` (a dict of three floats in the
source; `none` is its NaN). -/
structure KPIs where
  on_time_pct : Option ℚ
  cancel_rate_pct : Option ℚ
  avg_arr_delay_delayed : Option ℚ
deriving DecidableEq

/-- The KPI snapshot `compute.kpis_overview`. -/
def kpis_overview (df : List Row) : KPIs :=
  if df.isEmpty then { on_time_pct := none, cancel_rate_pct := none, avg_arr_delay_delayed := none }
  else
    { on_time_pct := onTimeOfSums (sumZ Row.circulated df) (sumZ Row.late_arr_count df)
      cancel_rate_pct := cancelOfSums (sumZ Row.canceled df) (sumZ Row.planned df)
      avg_arr_delay_delayed :=
        if 0 < sumW df then some (delayNum df / sumW df) else none }

/-- Undirected-pair separator of the Liaison Normalizer
(`compute._normalize_pair_cols`). -/
def pairSep : String := " ↔ "

/-- Undirected liaison key of `compute._normalize_pair_cols`: the
lexicographically smaller station name goes left (`dep <= arr` in Python). -/
def normKey (r : Row) : String :=
  if strLe r.departure r.arrival then r.departure ++ pairSep ++ r.arrival
  else r.arrival ++ pairSep ++ r.departure

/-- Group key of `liaison_ranking` / `liaison_summary`: the normalized pair
key in bidirectional mode, the directed `liaison` key otherwise. -/
def rankingKey (bi : Bool) (r : Row) : String :=
  if bi then normKey r else r.liaison

/-- Ascending list of the distinct group keys of a record set: pandas
`groupby` sorts its keys. -/
def sortedKeys (ks : List String) : List String :=
  List.insertionSort strLe ks.dedup

/-- Metric-name constant of the ranking UI. -/
def metricOnTimeName : String := "On-time arrival %"

/-- Metric-name constant of the ranking UI. -/
def metricAvgDelayName : String := "Avg arrival delay (delayed trains)"

/-- Metric-name constant of the ranking UI. -/
def metricCancelName : String := "Cancel rate %"

/-- Column-name constant. -/
def colOnTime : String := "on_time_pct"

/-- Column-name constant. -/
def colAvgDelay : String := "avg_delay_arr_delayed_min"

/-- Column-name constant. -/
def colCancel : String := "cancel_rate_pct"

/-- The `metric_map.get(metric, "on_time_pct")` lookup of `liaison_ranking`:
unknown metric names fall back to the on-time column. -/
def metricCol (metric : String) : String :=
  if metric = metricOnTimeName then colOnTime
  else if metric = metricAvgDelayName then colAvgDelay
  else if metric = metricCancelName then colCancel
  else colOnTime

/-- One aggregated group row of `liaison_ranking` (its index entry plus the
eight columns of the grouped frame, in source order). -/
structure RankRow where
  liaison : String
  planned : ℤ
  canceled : ℤ
  circulated : ℤ
  late_arr : ℤ
  avg_delay_arr_delayed_min : Option ℚ
  on_time_pct : Option ℚ
  cancel_rate_pct : Option ℚ
  rank_metric : Option ℚ
deriving DecidableEq

/-- Value of the chosen ranking column on a grouped row (`g[col]`). -/
def metricValOf (col : String) (g : RankRow) : Option ℚ :=
  if col = colAvgDelay then g.avg_delay_arr_delayed_min
  else if col = colCancel then g.cancel_rate_pct
  else g.on_time_pct

/-- Aggregation of one liaison group in `liaison_ranking` (lines 100–113 and
the `rank_metric` column of line 125). -/
def aggRank (col : String) (k : String) (rs : List Row) : RankRow :=
  { liaison := k
    planned := sumZ Row.planned rs
    canceled := sumZ Row.canceled rs
    circulated := sumZ Row.circulated rs
    late_arr := sumZ Row.late_arr_count rs
    avg_delay_arr_delayed_min := meanQ Row.avg_delay_arr_delayed_min rs
    on_time_pct := onTimeOfSums (sumZ Row.circulated rs) (sumZ Row.late_arr_count rs)
    cancel_rate_pct := cancelOfSums (sumZ Row.canceled rs) (sumZ Row.planned rs)
    rank_metric :=
      metricValOf col
        { liaison := k
          planned := sumZ Row.planned rs
          canceled := sumZ Row.canceled rs
          circulated := sumZ Row.circulated rs
          late_arr := sumZ Row.late_arr_count rs
          avg_delay_arr_delayed_min := meanQ Row.avg_delay_arr_delayed_min rs
          on_time_pct := onTimeOfSums (sumZ Row.circulated rs) (sumZ Row.late_arr_count rs)
          cancel_rate_pct := cancelOfSums (sumZ Row.canceled rs) (sumZ Row.planned rs)
          rank_metric := none } }

/-- The grouped (not yet metric-sorted) table of `liaison_ranking`, one row
per distinct group key, in the ascending key order of pandas `groupby`. -/
def groupedRank (df : List Row) (metric : String) (bi : Bool) : List RankRow :=
  (sortedKeys (df.map (rankingKey bi))).map
    (fun k => aggRank (metricCol metric) k (df.filter (fun r => rankingKey bi r == k)))

/-- Ascending order on nullable metric values with NaN last, the elementwise
order of `sort_values(..., ascending=True)` (pandas default
`na_position="last"`). -/
def optLeNL (a b : Option ℚ) : Prop :=
  match a, b with
  | some x, some y => x ≤ y
  | some _, none => True
  | none, some _ => False
  | none, none => True

instance : DecidableRel optLeNL := fun a b =>
  match a, b with
  | some x, some y => inferInstanceAs (Decidable (x ≤ y))
  | some _, none => .isTrue trivial
  | none, some _ => .isFalse id
  | none, none => .isTrue trivial

/-- Descending order on nullable metric values with NaN last, the elementwise
order of `sort_values(..., ascending=False)`. -/
def optGeNL (a b : Option ℚ) : Prop :=
  match a, b with
  | some x, some y => y ≤ x
  | some _, none => True
  | none, some _ => False
  | none, none => True

instance : DecidableRel optGeNL := fun a b =>
  match a, b with
  | some x, some y => inferInstanceAs (Decidable (y ≤ x))
  | some _, none => .isTrue trivial
  | none, some _ => .isFalse id
  | none, none => .isTrue trivial

/-- Row order of the ascending metric sort on grouped ranking rows. -/
def rmAsc (a b : RankRow) : Prop := optLeNL a.rank_metric b.rank_metric

instance : DecidableRel rmAsc := fun a b =>
  inferInstanceAs (Decidable (optLeNL a.rank_metric b.rank_metric))

/-- Row order of the descending metric sort on grouped ranking rows. -/
def rmDesc (a b : RankRow) : Prop := optGeNL a.rank_metric b.rank_metric

instance : DecidableRel rmDesc := fun a b =>
  inferInstanceAs (Decidable (optGeNL a.rank_metric b.rank_metric))

/-- The metric-sorted grouped table of `liaison_ranking` (line 124):
`ascending = (col != "on_time_pct")`. The source sorts with pandas' default
quicksort, which is unstable on equal metric values; the stable insertion
sort here is a determinization of it, and theorems use it only through
properties every correct comparison sort shares — sortedness, being a
permutation of the grouped table, and the resulting head/tail split —
plus concrete two-group evaluations, where numpy's small-array sort
coincides with the stable order. -/
def rankedSorted (df : List Row) (metric : String) (bi : Bool) : List RankRow :=
  if metricCol metric = colOnTime then List.insertionSort rmDesc (groupedRank df metric bi)
  else List.insertionSort rmAsc (groupedRank df metric bi)

/-- Last `n` elements of a list, pandas `tail(n)`. -/
def lastN (l : List α) (n : ℕ) : List α := l.drop (l.length - n)

/-- The Aggregation Engine's `compute.liaison_ranking`: empty pair of plain
empty tables on empty input, otherwise `(head(top_n), tail(top_n))` of the
metric-sorted grouped table. -/
def liaison_ranking (df : List Row) (metric : String) (bi : Bool) (top_n : ℕ) :
    List RankRow × List RankRow :=
  if df.isEmpty then ([], [])
  else ((rankedSorted df metric bi).take top_n, lastN (rankedSorted df metric bi) top_n)

/-- One output row of `compute.liaison_summary`, in the column order of its
final selection (lines 275–278). -/
structure SummaryRow where
  liaison : String
  service : Option String
  duration_class : Option String
  planned : ℤ
  canceled : ℤ
  circulated : ℤ
  late_arr_count : ℤ
  on_time_pct : Option ℚ
  cancel_rate_pct : Option ℚ
  late_rate_pct : Option ℚ
  avg_delay_arr_delayed_min : Option ℚ
deriving DecidableEq

/-- Categorical mode helper `_mode` of `liaison_summary`: pandas `mode()`
lists the most frequent values sorted ascending and `iloc[0]` takes the
first, so ties resolve to the lexicographically smallest value; `none` when
the group is empty. -/
def modeStr (xs : List String) : Option String :=
  let cands := List.insertionSort strLe xs.dedup
  let maxCt := (cands.map (fun v => xs.count v)).foldr max 0
  cands.find? (fun v => xs.count v == maxCt)

/-- Aggregation of one liaison group in `liaison_summary` (lines 251–271). -/
def aggSummary (k : String) (rs : List Row) : SummaryRow :=
  { liaison := k
    service := modeStr (rs.map Row.service)
    duration_class := modeStr (rs.map Row.duration_class)
    planned := sumZ Row.planned rs
    canceled := sumZ Row.canceled rs
    circulated := sumZ Row.circulated rs
    late_arr_count := sumZ Row.late_arr_count rs
    on_time_pct := onTimeOfSums (sumZ Row.circulated rs) (sumZ Row.late_arr_count rs)
    cancel_rate_pct := cancelOfSums (sumZ Row.canceled rs) (sumZ Row.planned rs)
    late_rate_pct := lateRateOfSums (sumZ Row.late_arr_count rs) (sumZ Row.circulated rs)
    avg_delay_arr_delayed_min := meanQ Row.avg_delay_arr_delayed_min rs }

/-- The Aggregation Engine's `compute.liaison_summary`. -/
def liaison_summary (df : List Row) (bi : Bool) : List SummaryRow :=
  if df.isEmpty then []
  else (sortedKeys (df.map (rankingKey bi))).map
    (fun k => aggSummary k (df.filter (fun r => rankingKey bi r == k)))

/-- One output row of `compute.monthly_series`. -/
structure MonthRow where
  date : ℕ
  on_time_pct : Option ℚ
  cancel_rate_pct : Option ℚ
deriving DecidableEq

/-- The monthly time series `compute.monthly_series`: month groups ascending,
per-group sums, the shared guarded rate formulas. -/
def monthly_series (df : List Row) : List MonthRow :=
  if df.isEmpty then []
  else (List.insertionSort (α := ℕ) (· ≤ ·) (df.map Row.date).dedup).map (fun m =>
    let rs := df.filter (fun r => r.date == m)
    { date := m
      on_time_pct := onTimeOfSums (sumZ Row.circulated rs) (sumZ Row.late_arr_count rs)
      cancel_rate_pct := cancelOfSums (sumZ Row.canceled rs) (sumZ Row.planned rs) })

/-- Ascending order on `(month, duration_class)` group keys of the pandas
two-key `groupby` in `duration_small_multiples`. -/
def monthClassLe (a b : ℕ × String) : Prop :=
  a.1 < b.1 ∨ (a.1 = b.1 ∧ strLe a.2 b.2)

instance : DecidableRel monthClassLe := fun a b =>
  inferInstanceAs (Decidable (a.1 < b.1 ∨ (a.1 = b.1 ∧ strLe a.2 b.2)))

/-- One output row of `compute.duration_small_multiples`. -/
structure DurRow where
  date : ℕ
  duration_class : String
  on_time_pct : Option ℚ
deriving DecidableEq

/-- The per-duration-class monthly series `compute.duration_small_multiples`. -/
def duration_small_multiples (df : List Row) : List DurRow :=
  if df.isEmpty then []
  else (List.insertionSort monthClassLe (df.map (fun r => (r.date, r.duration_class))).dedup).map
    (fun k =>
      let rs := df.filter (fun r => r.date == k.1 && r.duration_class == k.2)
      { date := k.1
        duration_class := k.2
        on_time_pct := onTimeOfSums (sumZ Row.circulated rs) (sumZ Row.late_arr_count rs) })

/-- Cause-column name constant. -/
def causeExternalCol : String := "pct_cause_external"

/-- Cause-column name constant. -/
def causeInfraCol : String := "pct_cause_infra"

/-- Cause-column name constant. -/
def causeTrafficCol : String := "pct_cause_traffic"

/-- Cause-column name constant. -/
def causeRollingstockCol : String := "pct_cause_rollingstock"

/-- Cause-column name constant. -/
def causeStationReuseCol : String := "pct_cause_station_reuse"

/-- Cause-column name constant. -/
def causePassengersCol : String := "pct_cause_passengers"

/-- The six cause columns in source declaration order (every canonical table
carries all six, so the `if c in df.columns` probes keep the full list). -/
def causeCols : List String :=
  [causeExternalCol, causeInfraCol, causeTrafficCol,
   causeRollingstockCol, causeStationReuseCol, causePassengersCol]

/-- Cell of a cause column addressed by column name. -/
def causeGet (c : String) (r : Row) : Option ℚ :=
  if c = causeExternalCol then r.pct_cause_external
  else if c = causeInfraCol then r.pct_cause_infra
  else if c = causeTrafficCol then r.pct_cause_traffic
  else if c = causeRollingstockCol then r.pct_cause_rollingstock
  else if c = causeStationReuseCol then r.pct_cause_station_reuse
  else if c = causePassengersCol then r.pct_cause_passengers
  else none

/-- Display label of a cause column in `causes_composition` (its local
`label_map`, which says "Traffic management"). -/
def causeLabelComp (c : String) : String :=
  if c = causeExternalCol then "External"
  else if c = causeInfraCol then "Infrastructure"
  else if c = causeTrafficCol then "Traffic management"
  else if c = causeRollingstockCol then "Rolling stock"
  else if c = causeStationReuseCol then "Station ops & reuse"
  else if c = causePassengersCol then "Passengers / PSH / connections"
  else c

/-- Display label of a cause column in `_CAUSE_LABELS`, the severity-profile
and dominance label maps (which say "Traffic"). -/
def causeLabel (c : String) : String :=
  if c = causeExternalCol then "External"
  else if c = causeInfraCol then "Infrastructure"
  else if c = causeTrafficCol then "Traffic"
  else if c = causeRollingstockCol then "Rolling stock"
  else if c = causeStationReuseCol then "Station ops & reuse"
  else if c = causePassengersCol then "Passengers / PSH / connections"
  else c

/-- Breakdown-name constant. -/
def breakdownMonth : String := "Month"

/-- Breakdown-name constant. -/
def breakdownLiaison : String := "Liaison"

/-- Group key of the cause breakdown: a calendar month or a directed liaison
(`df["_group"]` of `causes_composition` / `severe_counts`). -/
inductive GKey
  | month (m : ℕ)
  | liaison (s : String)
deriving DecidableEq

/-- Ascending order on cause-breakdown group keys (pandas `groupby` key
order; the two constructors never mix within one breakdown). -/
def gkeyLe (a b : GKey) : Prop :=
  match a, b with
  | .month x, .month y => x ≤ y
  | .liaison x, .liaison y => strLe x y
  | .month _, .liaison _ => True
  | .liaison _, .month _ => False

instance : DecidableRel gkeyLe := fun a b =>
  match a, b with
  | .month x, .month y => inferInstanceAs (Decidable (x ≤ y))
  | .liaison x, .liaison y => inferInstanceAs (Decidable (strLe x y))
  | .month _, .liaison _ => .isTrue trivial
  | .liaison _, .month _ => .isFalse id

/-- Group key of a row under a breakdown
(`df["_group"] = month` when `breakdown == "Month"`, else the liaison). -/
def groupOf (breakdown : String) (r : Row) : GKey :=
  if breakdown = breakdownMonth then .month r.date else .liaison r.liaison

/-- Ascending distinct group keys, pandas `groupby` order. -/
def sortedGKeys (ks : List GKey) : List GKey := List.insertionSort gkeyLe ks.dedup

/-- Rows of one cause-breakdown group. -/
def groupRows (df : List Row) (breakdown : String) (g : GKey) : List Row :=
  df.filter (fun r => groupOf breakdown r == g)

/-- Numerator of the weighted cause share in `causes_composition`:
`(df[cause_cols].multiply(w)).groupby(...).sum()`. No `fillna` is applied to
the cause columns there, so a missing share turns the product into NaN, which
the pandas sum then skips, while the row still contributes to the weight
denominator. -/
def causeNumSkip (c : String) (rs : List Row) : ℚ :=
  (rs.map (fun r =>
    match causeGet c r with
    | some p => p * wOf r
    | none => 0)).sum

/-- Weighted mean cause share of one group in `causes_composition`
(`num.divide(den)` with the zero denominator replaced by NaN first). -/
def causeShare (c : String) (rs : List Row) : Option ℚ :=
  if sumW rs = 0 then none else some (causeNumSkip c rs / sumW rs)

/-- Descending-volume order on group keys
(`df.groupby("_group")["circulated"].sum().sort_values(ascending=False)`),
embedded as a stable sort on the key-sorted group list. -/
def volGe (df : List Row) (breakdown : String) (a b : GKey) : Prop :=
  sumZ Row.circulated (groupRows df breakdown b) ≤ sumZ Row.circulated (groupRows df breakdown a)

instance (df : List Row) (breakdown : String) : DecidableRel (volGe df breakdown) := fun a b =>
  inferInstanceAs (Decidable
    (sumZ Row.circulated (groupRows df breakdown b) ≤ sumZ Row.circulated (groupRows df breakdown a)))

/-- One melted output row of `causes_composition`. -/
structure CompRow where
  group : GKey
  cause : String
  pct : Option ℚ
deriving DecidableEq

/-- Final categorical order of `causes_composition`'s liaison breakdown: rows
sorted by the position of their group in the descending-volume liaison list. -/
def compVolLe (vol : List GKey) (a b : CompRow) : Prop :=
  vol.findIdx (fun x => x == a.group) ≤ vol.findIdx (fun x => x == b.group)

instance (vol : List GKey) : DecidableRel (compVolLe vol) := fun a b =>
  inferInstanceAs (Decidable
    (vol.findIdx (fun x => x == a.group) ≤ vol.findIdx (fun x => x == b.group)))

/-- The cause-composition table `compute.causes_composition`: weighted mean
share per group and cause (melted cause-major as pandas `melt` does), with the
liaison breakdown optionally restricted to the top-N liaisons by circulated
volume and finally ordered by that volume order. -/
def causes_composition (df : List Row) (breakdown : String) (top_n : Option ℕ) : List CompRow :=
  if df.isEmpty then []
  else
    let keys := sortedGKeys (df.map (groupOf breakdown))
    let vol := List.insertionSort (volGe df breakdown) keys
    let keep :=
      if breakdown = breakdownLiaison then
        match top_n with
        | some n => keys.filter (fun k => (vol.take n).contains k)
        | none => keys
      else keys
    let melted := causeCols.flatMap (fun c => keep.map (fun g =>
      { group := g, cause := causeLabelComp c, pct := causeShare c (groupRows df breakdown g) }))
    if breakdown = breakdownLiaison then List.insertionSort (compVolLe vol) melted
    else melted

/-- Round half to even at integer precision, Python's `round` tie behavior. -/
def roundHalfEven (q : ℚ) : ℤ :=
  if q - (⌊q⌋ : ℚ) < 1/2 then ⌊q⌋
  else if 1/2 < q - (⌊q⌋ : ℚ) then ⌊q⌋ + 1
  else if Even ⌊q⌋ then ⌊q⌋ else ⌊q⌋ + 1

/-- Python's `round(x, 1)`. -/
def round1 (q : ℚ) : ℚ := ((roundHalfEven (q * 10) : ℤ) : ℚ) / 10

/-- Severity-bucket name constant. -/
def bucket15Name : String := "≥15"

/-- Severity-bucket name constant. -/
def bucket30Name : String := "≥30"

/-- Severity-bucket name constant. -/
def bucket60Name : String := "≥60"

/-- Severity-bucket column constant. -/
def bucket15Col : String := "late_over_15_count"

/-- Severity-bucket column constant. -/
def bucket30Col : String := "late_over_30_count"

/-- Severity-bucket column constant. -/
def bucket60Col : String := "late_over_60_count"

/-- The `candidates` bucket map of `severity_profile_by_cause` in source
order; all three columns exist on the canonical table. -/
def bucketPairs : List (String × String) :=
  [(bucket15Name, bucket15Col), (bucket30Name, bucket30Col), (bucket60Name, bucket60Col)]

/-- Cell of a severity-bucket column addressed by column name. -/
def bucketGet (c : String) (r : Row) : Option ℤ :=
  if c = bucket15Col then r.late_over_15_count
  else if c = bucket30Col then r.late_over_30_count
  else if c = bucket60Col then r.late_over_60_count
  else none

/-- One output row of `compute.severity_profile_by_cause`. -/
structure SevRow where
  cause : String
  bucket : String
  pct : Option ℚ
deriving DecidableEq

/-- The severity profile `compute.severity_profile_by_cause`: for each bucket
and cause, the bucket-count-weighted mean cause share times 100, rounded to
one decimal, `none` when the bucket total is not positive. -/
def severity_profile_by_cause (df : List Row) : List SevRow :=
  if df.isEmpty then []
  else bucketPairs.flatMap (fun b => causeCols.map (fun c =>
    let den : ℚ := ((sumZ (bucketGet b.2) df : ℤ) : ℚ)
    let num : ℚ :=
      (df.map (fun r => fillQ (causeGet c r) * ((fillZ (bucketGet b.2 r) : ℤ) : ℚ))).sum
    { cause := causeLabel c
      bucket := b.1
      pct := if 0 < den then some (round1 (num / den * 100)) else none }))

/-- Group key of `liaison_cause_dominance_summary`: normalized pair key in
bidirectional mode (the default), the directed liaison otherwise. -/
def domKey (bi : Bool) (r : Row) : String :=
  if bi then normKey r else r.liaison

/-- Weighted mean share (in percent) of one cause over a dominance group
(lines 445–451: `fillna(0)` on the cause column, `late_arr_count.fillna(0)`
weights, zero total weight replaced by NaN). -/
def domShare (c : String) (rs : List Row) : Option ℚ :=
  if sumW rs = 0 then none
  else some ((rs.map (fun r => fillQ (causeGet c r) * wOf r)).sum / sumW rs * 100)

/-- The `idxmax(axis=1)` dominant cause: first column (in `causeCols` order)
attaining the maximal defined share, skipping NaN shares; `none` when every
share is NaN. -/
def firstMaxCause (rs : List Row) : Option String :=
  (causeCols.foldl
    (fun acc c =>
      match acc, domShare c rs with
      | none, some v => some (c, v)
      | some (c0, v0), some v => if v0 < v then some (c, v) else some (c0, v0)
      | a, none => a)
    none).map (fun p => causeLabel p.1)

/-- One output row of `compute.liaison_cause_dominance_summary` (its final
column selection). -/
structure DomRow where
  liaison : String
  on_time_pct : Option ℚ
  avg_delay_arr_delayed_min : Option ℚ
  late_arr_count : ℤ
  dominant_cause : Option String
deriving DecidableEq

/-- The dominant-cause table `compute.liaison_cause_dominance_summary`. -/
def liaison_cause_dominance_summary (df : List Row) (bi : Bool) : List DomRow :=
  if df.isEmpty then []
  else (sortedKeys (df.map (domKey bi))).map (fun k =>
    let rs := df.filter (fun r => domKey bi r == k)
    { liaison := k
      on_time_pct := onTimeOfSums (sumZ Row.circulated rs) (sumZ Row.late_arr_count rs)
      avg_delay_arr_delayed_min := meanQ Row.avg_delay_arr_delayed_min rs
      late_arr_count := sumZ Row.late_arr_count rs
      dominant_cause := firstMaxCause rs })

/-- Column-name constant. -/
def dateCol : String := "date"

/-- Column-name constant. -/
def plannedCol : String := "planned"

/-- Column-name constant. -/
def canceledCol : String := "canceled"

/-- Column-name constant. -/
def circulatedCol : String := "circulated"

/-- Column-name constant (ranking's short `late_arr` aggregate name). -/
def lateArrCol : String := "late_arr"

/-- Column-name constant. -/
def lateArrCountCol : String := "late_arr_count"

/-- Column-name constant. -/
def rankMetricCol : String := "rank_metric"

/-- Column-name constant. -/
def liaisonCol : String := "liaison"

/-- Column-name constant. -/
def serviceCol : String := "service"

/-- Column-name constant. -/
def durationClassCol : String := "duration_class"

/-- Column-name constant. -/
def lateRateCol : String := "late_rate_pct"

/-- Column-name constant. -/
def groupCol : String := "group"

/-- Column-name constant. -/
def causeCol : String := "cause"

/-- Column-name constant. -/
def pctCol : String := "pct"

/-- Column-name constant. -/
def bucketCol : String := "bucket"

/-- Column-name constant. -/
def dominantCauseCol : String := "dominant_cause"

/-- Key constant of the `kpis_overview` result dict. -/
def avgDelayKeyName : String := "avg_arr_delay_delayed"

/-- Keys of the dict `kpis_overview` returns — identical on both branches. -/
def kpis_overview_keys (df : List Row) : List String :=
  if df.isEmpty then [colOnTime, colCancel, avgDelayKeyName]
  else [colOnTime, colCancel, avgDelayKeyName]

/-- Column names of the `monthly_series` output: the empty branch builds
`DataFrame(columns=["date","on_time_pct","cancel_rate_pct"])`, the main
branch ends on the selection `[["date","on_time_pct","cancel_rate_pct"]]`. -/
def monthly_series_cols (df : List Row) : List String :=
  if df.isEmpty then [dateCol, colOnTime, colCancel]
  else [dateCol, colOnTime, colCancel]

/-- Column names of the `duration_small_multiples` output; both branches
carry `["date","duration_class","on_time_pct"]`. -/
def duration_small_multiples_cols (df : List Row) : List String :=
  if df.isEmpty then [dateCol, durationClassCol, colOnTime]
  else [dateCol, durationClassCol, colOnTime]

/-- Column names of each member of the `liaison_ranking` output pair: the
empty branch returns two bare `pd.DataFrame()` with no columns at all, while
the main branch's frames carry the five aggregates plus `on_time_pct`,
`cancel_rate_pct` and `rank_metric`. -/
def liaison_ranking_cols (df : List Row) : List String :=
  if df.isEmpty then []
  else [plannedCol, canceledCol, circulatedCol, lateArrCol, colAvgDelay,
        colOnTime, colCancel, rankMetricCol]

/-- Column names of the `liaison_summary` output; empty branch and final
selection list the same eleven columns. -/
def liaison_summary_cols (df : List Row) : List String :=
  if df.isEmpty then
    [liaisonCol, serviceCol, durationClassCol, plannedCol, canceledCol, circulatedCol,
     lateArrCountCol, colOnTime, colCancel, lateRateCol, colAvgDelay]
  else
    [liaisonCol, serviceCol, durationClassCol, plannedCol, canceledCol, circulatedCol,
     lateArrCountCol, colOnTime, colCancel, lateRateCol, colAvgDelay]

/-- Column names of the `causes_composition` output; the empty branch builds
`DataFrame(columns=["group","cause","pct"])` and the melt of the main branch
produces the same three. -/
def causes_composition_cols (df : List Row) : List String :=
  if df.isEmpty then [groupCol, causeCol, pctCol]
  else [groupCol, causeCol, pctCol]

/-- Column names of the `severity_profile_by_cause` output; both branches
carry `["cause","bucket","pct"]`. -/
def severity_profile_by_cause_cols (df : List Row) : List String :=
  if df.isEmpty then [causeCol, bucketCol, pctCol]
  else [causeCol, bucketCol, pctCol]

/-- Column names of the `liaison_cause_dominance_summary` output: the empty
branch returns a bare `pd.DataFrame()` with no columns, the main branch the
five selected columns. -/
def liaison_cause_dominance_summary_cols (df : List Row) : List String :=
  if df.isEmpty then []
  else [liaisonCol, colOnTime, colAvgDelay, lateArrCountCol, dominantCauseCol]

/-- Per-row on-time percentage `on_time_pct_row` derived inside
`quality.outlier_months` via
`np.where(circulated > 0, (circulated - late_arr_count)/circulated*100, nan)`:
missing in either source cell, or a non-positive circulated count, gives NaN. -/
def onTimeRow (r : Row) : Option ℚ :=
  match r.circulated, r.late_arr_count with
  | some c, some l => if 0 < c then some ((((c - l : ℤ)) : ℚ) / ((c : ℤ) : ℚ) * 100) else none
  | _, _ => none

/-- Ascending order on `(liaison, month)` group keys of
`quality.outlier_months`. -/
def liaisonMonthLe (a b : String × ℕ) : Prop :=
  strLt a.1 b.1 ∨ (a.1 = b.1 ∧ a.2 ≤ b.2)

instance : DecidableRel liaisonMonthLe := fun a b =>
  inferInstanceAs (Decidable (strLt a.1 b.1 ∨ (a.1 = b.1 ∧ a.2 ≤ b.2)))

/-- The `(liaison, month)` mean table `grp` of `quality.outlier_months`: rows
with a defined `on_time_pct_row` only, grouped on both keys in ascending key
order, the group mean of the per-row on-time values. -/
def monthlyMeans (rows : List Row) : List (String × ℕ × ℚ) :=
  let present := rows.filter (fun r => (onTimeRow r).isSome)
  (List.insertionSort liaisonMonthLe (present.map (fun r => (r.liaison, r.date))).dedup).map
    (fun k =>
      let vs := (present.filter (fun r => r.liaison == k.1 && r.date == k.2)).filterMap onTimeRow
      (k.1, k.2, vs.sum / (vs.length : ℚ)))

/-- One liaison's full monthly history inside `grp`, in ascending month
order — the series each `flag_group` call receives. -/
def historyOf (rows : List Row) (L : String) : List ℚ :=
  (monthlyMeans rows).filterMap (fun x => if x.1 = L then some x.2.2 else none)

/-- pandas `Series.quantile(p)` with the default linear interpolation: sort
the values, take position `p·(n−1)`, interpolate between its floor and the
next element. -/
def quantileLinear (xs : List ℚ) (p : ℚ) : ℚ :=
  let s := List.insertionSort (α := ℚ) (· ≤ ·) xs
  if s.isEmpty then 0
  else
    let pos : ℚ := p * ((s.length : ℚ) - 1)
    let i : ℕ := (⌊pos⌋).toNat
    (s.getD i 0) + ((s.getD (i + 1) (s.getD i 0)) - s.getD i 0) * (pos - (i : ℚ))

/-- The `1e-9` fudge added to the IQR in `flag_group`. -/
def iqrEps : ℚ := 1 / 1000000000

/-- The IQR low-outlier cutoff computed by `flag_group`:
`q1 - threshold * ((q3 - q1) + 1e-9)`. -/
def iqrLower (xs : List ℚ) (threshold : ℚ) : ℚ :=
  quantileLinear xs (1/4) - threshold * ((quantileLinear xs (3/4) - quantileLinear xs (1/4)) + iqrEps)

/-- Ascending order on `(date, liaison)` of the final
`sort_values(["date","liaison"])`. -/
def dateLiaisonLe (a b : ℕ × String × ℚ) : Prop :=
  a.1 < b.1 ∨ (a.1 = b.1 ∧ strLe a.2.1 b.2.1)

instance : DecidableRel dateLiaisonLe := fun a b =>
  inferInstanceAs (Decidable (a.1 < b.1 ∨ (a.1 = b.1 ∧ strLe a.2.1 b.2.1)))

/-- The Data Quality Analyzer's `quality.outlier_months` under its default
IQR method (the `z` branch divides by a real standard deviation and is not
exercised by any claim): per liaison, flag the `(liaison, month)` means lying
strictly below that liaison's `iqrLower` cutoff, except when the liaison's
history has at most one distinct value; return the flagged rows as
`(date, liaison, on_time_pct)` sorted by date then liaison. -/
def outlier_months (rows : List Row) (threshold : ℚ) : List (ℕ × String × ℚ) :=
  let grp := monthlyMeans rows
  let flagged := grp.filter (fun x =>
    decide (1 < (historyOf rows x.1).dedup.length) &&
    decide (x.2.2 < iqrLower (historyOf rows x.1) threshold))
  List.insertionSort dateLiaisonLe (flagged.map (fun x => (x.2.1, x.1, x.2.2)))

/-- The weighted mean of `avg_delay_arr_delayed_min` restricted to the rows
where the delay value is present — the alternative semantics that claim C10
contrasts with the code's actual weighting (stated from the claim's words,
for comparison only). -/
def restrictedDelayMeanSpec (df : List Row) : Option ℚ :=
  let p := df.filter (fun r => r.avg_delay_arr_delayed_min.isSome)
  if 0 < sumW p then some (delayNum p / sumW p) else none

/-- Neutral template row for concrete test inputs; every nullable cell
missing. -/
def baseRow : Row :=
  { date := 0
    service := "National"
    departure := "A"
    arrival := "B"
    duration_class := "unknown"
    liaison := "A → B"
    planned := none
    canceled := none
    circulated := none
    late_arr_count := none
    late_over_15_count := none
    late_over_30_count := none
    late_over_60_count := none
    avg_delay_arr_delayed_min := none
    pct_cause_external := none
    pct_cause_infra := none
    pct_cause_traffic := none
    pct_cause_rollingstock := none
    pct_cause_station_reuse := none
    pct_cause_passengers := none }

/-- Scenario input of C6: three rows with circulated 100/200/50 and
late arrivals 10/20/5. -/
def exKpiRows : List Row :=
  [{ baseRow with circulated := some 100, late_arr_count := some 10 },
   { baseRow with circulated := some 200, late_arr_count := some 20 },
   { baseRow with circulated := some 50, late_arr_count := some 5 }]

/-- Input of C10: one row with delay 30 and weight 10, one row with a missing
delay but weight 10. -/
def exDelayRows : List Row :=
  [{ baseRow with avg_delay_arr_delayed_min := some 30, late_arr_count := some 10 },
   { baseRow with late_arr_count := some 10 }]

/-- Ranking counterexample input of C1: liaison A → B cancels 10 of 100
planned (cancel rate 10), liaison C → D cancels 50 of 100 (cancel rate 50). -/
def exRankRows : List Row :=
  [{ baseRow with
     departure := "A"
     arrival := "B"
     liaison := "A → B"
     planned := some 100
     canceled := some 10
     circulated := some 90
     late_arr_count := some 0 },
   { baseRow with
     departure := "C"
     arrival := "D"
     liaison := "C → D"
     planned := some 100
     canceled := some 50
     circulated := some 50
     late_arr_count := some 0 }]

/-- Tie-break input of C4: liaison B → Z appears first in the record set,
liaison A → Z second, both with an identical on-time percentage of 90. -/
def exTieRows : List Row :=
  [{ baseRow with
     departure := "B"
     arrival := "Z"
     liaison := "B → Z"
     circulated := some 100
     late_arr_count := some 10 },
   { baseRow with
     departure := "A"
     arrival := "Z"
     liaison := "A → Z"
     circulated := some 100
     late_arr_count := some 10 }]

/-- Bidirectional witness row of C5, the Paris → Lyon direction. -/
def exSumRow1 : Row :=
  { baseRow with
    departure := "Paris"
    arrival := "Lyon"
    liaison := "Paris → Lyon"
    date := 3
    planned := some 10
    canceled := some 1
    circulated := some 9
    late_arr_count := some 2 }

/-- Bidirectional witness row of C5, the Lyon → Paris direction. -/
def exSumRow2 : Row :=
  { baseRow with
    departure := "Lyon"
    arrival := "Paris"
    liaison := "Lyon → Paris"
    date := 3
    planned := some 20
    canceled := some 2
    circulated := some 18
    late_arr_count := some 3 }

/-- Witness input of C2: one fully in-bounds row. -/
def exBoundedRow : Row :=
  { baseRow with
    planned := some 10
    canceled := some 1
    circulated := some 9
    late_arr_count := some 2
    late_over_15_count := some 2
    late_over_30_count := some 1
    late_over_60_count := some 0
    avg_delay_arr_delayed_min := some 12
    pct_cause_external := some 40
    pct_cause_infra := some 30
    pct_cause_traffic := some 30
    pct_cause_rollingstock := some 0
    pct_cause_station_reuse := some 0
    pct_cause_passengers := some 0 }

/-- Witness input list of C2. -/
def exBoundedRows : List Row := [exBoundedRow]

/-- Scenario input of C8: one liaison L with monthly on-time values
90, 91, 89, 92, 90, 91, 20 over months 1–7. -/
def exOutlRows : List Row :=
  [{ baseRow with liaison := "L", date := 1, circulated := some 100, late_arr_count := some 10 },
   { baseRow with liaison := "L", date := 2, circulated := some 100, late_arr_count := some 9 },
   { baseRow with liaison := "L", date := 3, circulated := some 100, late_arr_count := some 11 },
   { baseRow with liaison := "L", date := 4, circulated := some 100, late_arr_count := some 8 },
   { baseRow with liaison := "L", date := 5, circulated := some 100, late_arr_count := some 10 },
   { baseRow with liaison := "L", date := 6, circulated := some 100, late_arr_count := some 9 },
   { baseRow with liaison := "L", date := 7, circulated := some 100, late_arr_count := some 80 }]

/-- Epsilon counterexample input of C8: liaison M's month-1 value is
87 − 10⁻⁹, strictly below Q1 − 1.5·IQR = 87 of its history but not below the
code's cutoff 87 − 1.5·10⁻⁹. -/
def exEpsRows : List Row :=
  [{ baseRow with
     liaison := "M"
     date := 1
     circulated := some 100000000000
     late_arr_count := some 13000000001 },
   { baseRow with liaison := "M", date := 2, circulated := some 100, late_arr_count := some 10 },
   { baseRow with liaison := "M", date := 3, circulated := some 100, late_arr_count := some 9 },
   { baseRow with liaison := "M", date := 4, circulated := some 100, late_arr_count := some 8 },
   { baseRow with liaison := "M", date := 5, circulated := some 100, late_arr_count := some 7 }]

/-! Helper lemmas. -/

lemma strLe_iff_data (a b : String) : strLe a b ↔ a.data ≤ b.data := by
  unfold strLe
  constructor
  · rintro (h | rfl)
    · exact le_of_lt h
    · exact le_refl _
  · intro h
    rcases lt_or_eq_of_le h with h' | h'
    · exact Or.inl h'
    · exact Or.inr (by cases a; cases b; exact congrArg String.mk h')

lemma strLe_total (a b : String) : strLe a b ∨ strLe b a := by
  rw [strLe_iff_data, strLe_iff_data]
  exact le_total _ _

lemma strLe_antisymm {a b : String} (h1 : strLe a b) (h2 : strLe b a) : a = b := by
  rw [strLe_iff_data] at h1 h2
  have h := le_antisymm h1 h2
  cases a; cases b; exact congrArg String.mk h

lemma strLe_trans {a b c : String} (h1 : strLe a b) (h2 : strLe b c) : strLe a c := by
  rw [strLe_iff_data] at h1 h2 ⊢
  exact le_trans h1 h2

instance : IsTotal String strLe := ⟨strLe_total⟩

instance : IsTrans String strLe := ⟨fun _ _ _ h1 h2 => strLe_trans h1 h2⟩

lemma optLeNL_total (a b : Option ℚ) : optLeNL a b ∨ optLeNL b a := by
  rcases a with _ | x <;> rcases b with _ | y <;> simp [optLeNL]
  exact le_total x y

lemma optLeNL_trans {a b c : Option ℚ} (h1 : optLeNL a b) (h2 : optLeNL b c) : optLeNL a c := by
  rcases a with _ | x <;> rcases b with _ | y <;> rcases c with _ | z <;>
    simp [optLeNL] at * <;> exact le_trans h1 h2

lemma optGeNL_total (a b : Option ℚ) : optGeNL a b ∨ optGeNL b a := by
  rcases a with _ | x <;> rcases b with _ | y <;> simp [optGeNL]
  exact le_total y x

lemma optGeNL_trans {a b c : Option ℚ} (h1 : optGeNL a b) (h2 : optGeNL b c) : optGeNL a c := by
  rcases a with _ | x <;> rcases b with _ | y <;> rcases c with _ | z <;>
    simp [optGeNL] at * <;> exact le_trans h2 h1

instance : IsTotal RankRow rmAsc := ⟨fun a b => optLeNL_total a.rank_metric b.rank_metric⟩

instance : IsTrans RankRow rmAsc := ⟨fun _ _ _ h1 h2 => optLeNL_trans h1 h2⟩

instance : IsTotal RankRow rmDesc := ⟨fun a b => optGeNL_total a.rank_metric b.rank_metric⟩

instance : IsTrans RankRow rmDesc := ⟨fun _ _ _ h1 h2 => optGeNL_trans h1 h2⟩

lemma pairwise_take_lastN {R : RankRow → RankRow → Prop} {g : List RankRow}
    (h : List.Pairwise R g) (n : ℕ) :
    ∀ x ∈ g.take n, ∀ y ∈ lastN g n, R x y ∨ y ∈ g.take n := by
  intro x hx y hy
  by_cases hmem : y ∈ g.take n
  · exact Or.inr hmem
  · left
    have hyg : y ∈ g := List.drop_subset _ _ hy
    have hsplit : y ∈ g.take n ++ g.drop n := by
      rw [List.take_append_drop]; exact hyg
    rcases List.mem_append.1 hsplit with h1 | h2
    · exact absurd h1 hmem
    · have hp : List.Pairwise R (g.take n ++ g.drop n) := by
        rw [List.take_append_drop]; exact h
      exact (List.pairwise_append.1 hp).2.2 x hx y h2

/-! Claim theorems. -/

/-- C6 (confirmed): the KPI snapshot computes its on-time percentage as
(Σ circulated − Σ late_arr_count) / Σ circulated × 100 over the whole
filtered set with missing counts read as 0, and leaves it undefined exactly
when Σ circulated is not positive; in particular, on three rows with
circulated 100, 200, 50 and late arrivals 10, 20, 5 it returns exactly 90. -/
theorem c6_kpi_on_time_formula :
    (∀ df : List Row, (kpis_overview df).on_time_pct =
      if 0 < sumZ Row.circulated df then
        some ((((sumZ Row.circulated df - sumZ Row.late_arr_count df : ℤ)) : ℚ)
          / ((sumZ Row.circulated df : ℤ) : ℚ) * 100)
      else none)
    ∧ (kpis_overview exKpiRows).on_time_pct = some 90 := by
  constructor
  · intro df
    cases df with
    | nil => simp [kpis_overview, sumZ]
    | cons a l => simp [kpis_overview, onTimeOfSums]
  · norm_num +decide [kpis_overview, exKpiRows, baseRow, sumZ, fillZ, onTimeOfSums]

/-- C10 (confirmed): in the KPI snapshot's weighted delay mean, a row with a
missing `avg_delay_arr_delayed_min` but positive `late_arr_count` adds its
weight to the denominator and nothing to the numerator, and a missing
`late_arr_count` means weight 0; on a concrete two-row input (delay 30 with
weight 10, missing delay with weight 10) the snapshot returns 15 while the
weighted mean restricted to delay-bearing rows returns 30. -/
theorem c10_weighted_mean_includes_missing_delay_weights :
    (∀ df : List Row, (kpis_overview df).avg_arr_delay_delayed =
      if 0 < sumW df then some (delayNum df / sumW df) else none)
    ∧ (kpis_overview exDelayRows).avg_arr_delay_delayed = some 15
    ∧ restrictedDelayMeanSpec exDelayRows = some 30
    ∧ (kpis_overview exDelayRows).avg_arr_delay_delayed ≠ restrictedDelayMeanSpec exDelayRows := by
  refine ⟨?_, ?_, ?_, ?_⟩
  · intro df
    cases df with
    | nil => simp [kpis_overview, sumW, wOf]
    | cons a l => simp [kpis_overview]
  · norm_num +decide [kpis_overview, exDelayRows, baseRow, sumW, wOf, delayNum, fillZ]
  · norm_num +decide [restrictedDelayMeanSpec, exDelayRows, baseRow, sumW, wOf, delayNum,
      fillZ, List.filter]
  · norm_num +decide [kpis_overview, restrictedDelayMeanSpec, exDelayRows, baseRow, sumW,
      wOf, delayNum, fillZ, List.filter]

/-- C9 (confirmed): every cleaned row's derived `circulated` equals
`max(planned − canceled, 0)` with missing counts read as 0, so for every
filter state the circulated sum over the filtered set equals the sum of the
per-row clamped differences. -/
theorem c9_circulated_conservation :
    (∀ raw : List RawRow, ∀ r ∈ clean raw,
      r.circulated = some (max (fillZ r.planned - fillZ r.canceled) 0))
    ∧ (∀ raw : List RawRow, ∀ s : Session,
      sumZ Row.circulated (apply_overview_filters (clean raw) s) =
        ((apply_overview_filters (clean raw) s).map
          (fun r => max (fillZ r.planned - fillZ r.canceled) 0)).sum) := by
  have hrow : ∀ raw : List RawRow, ∀ r ∈ clean raw,
      r.circulated = some (max (fillZ r.planned - fillZ r.canceled) 0) := by
    intro raw r hr
    rcases List.mem_map.1 hr with ⟨x, _, rfl⟩
    rfl
  refine ⟨hrow, ?_⟩
  intro raw s
  unfold sumZ
  refine congrArg List.sum (List.map_congr_left ?_)
  intro r hr
  have hin : r ∈ clean raw := List.mem_of_mem_filter hr
  rw [hrow raw r hin]
  rfl

/-- C7 (confirmed): membership in the filtered set factors into the non-station
mask and the station condition; with `treat_bidirectional` true, a row passes
the departure filter iff either endpoint lies in the departure selection
(empty selection passes trivially), independently likewise for the arrival
selection, and both must hold; with it false, `departures` filters the
departure column and `arrivals` the arrival column by exact membership,
conjoined. -/
theorem c7_station_filter_semantics (rows : List Row) (s : Session) (r : Row) :
    r ∈ apply_overview_filters rows s ↔
      r ∈ rows ∧ baseMask s r = true ∧
      (if s.treat_bidirectional then
        ((s.departures = [] ∧ s.arrivals = []) ∨
          ((s.departures = [] ∨ r.departure ∈ s.departures ∨ r.arrival ∈ s.departures) ∧
           (s.arrivals = [] ∨ r.departure ∈ s.arrivals ∨ r.arrival ∈ s.arrivals)))
      else
        ((s.departures = [] ∨ r.departure ∈ s.departures) ∧
         (s.arrivals = [] ∨ r.arrival ∈ s.arrivals))) := by
  simp only [apply_overview_filters, List.mem_filter]
  refine and_congr_right fun _ => ?_
  simp only [rowMask, Bool.and_eq_true]
  refine and_congr_right fun _ => ?_
  cases hbi : s.treat_bidirectional with
  | false =>
    by_cases hd : s.departures = [] <;> by_cases ha : s.arrivals = [] <;>
      simp [stationMask, hbi, hd, ha]
  | true =>
    by_cases hd : s.departures = [] <;> by_cases ha : s.arrivals = [] <;>
      simp [stationMask, hbi, hd, ha]

/-- C5 (confirmed): two mutually reversed rows (same month and service) merge
under `treat_bidirectional` into exactly one summary row, keyed by the
undirected pair with the lexicographically smaller station left, whose
planned/canceled/circulated/late-arrival sums are the sums of the two rows'
counts (missing counts read as 0, as the pandas group sums do). -/
theorem c5_bidirectional_merge (r1 r2 : Row)
    (h1 : r2.departure = r1.arrival) (h2 : r2.arrival = r1.departure)
    (h3 : r2.date = r1.date) (h4 : r2.service = r1.service) :
    (liaison_summary [r1, r2] true).map SummaryRow.liaison =
      [if strLe r1.departure r1.arrival then r1.departure ++ pairSep ++ r1.arrival
       else r1.arrival ++ pairSep ++ r1.departure]
    ∧ (liaison_summary [r1, r2] true).map SummaryRow.planned =
        [fillZ r1.planned + fillZ r2.planned]
    ∧ (liaison_summary [r1, r2] true).map SummaryRow.canceled =
        [fillZ r1.canceled + fillZ r2.canceled]
    ∧ (liaison_summary [r1, r2] true).map SummaryRow.circulated =
        [fillZ r1.circulated + fillZ r2.circulated]
    ∧ (liaison_summary [r1, r2] true).map SummaryRow.late_arr_count =
        [fillZ r1.late_arr_count + fillZ r2.late_arr_count] := by
  have hk : normKey r2 = normKey r1 := by
    unfold normKey
    rw [h1, h2]
    by_cases h : strLe r1.departure r1.arrival
    · by_cases h' : strLe r1.arrival r1.departure
      · have he := strLe_antisymm h' h
        rw [if_pos h, if_pos h', he]
      · rw [if_pos h, if_neg h']
    · have h' : strLe r1.arrival r1.departure := (strLe_total _ _).resolve_left h
      rw [if_neg h, if_pos h']
  have hkey1 : rankingKey true r1 = normKey r1 := by simp [rankingKey]
  have hkey2 : rankingKey true r2 = normKey r1 := by simp [rankingKey, hk]
  have hgroups : liaison_summary [r1, r2] true = [aggSummary (normKey r1) [r1, r2]] := by
    unfold liaison_summary sortedKeys
    simp [hkey1, hkey2, List.insertionSort, List.orderedInsert, List.filter]
  rw [hgroups]
  refine ⟨?_, ?_, ?_, ?_, ?_⟩ <;> simp [aggSummary, sumZ, normKey]

/-- Witness of C5: the Paris ↔ Lyon pair, both directions present, merges
into one summary row. -/
theorem c5_bidirectional_merge_witness :
    (exSumRow2.departure = exSumRow1.arrival ∧ exSumRow2.arrival = exSumRow1.departure ∧
     exSumRow2.date = exSumRow1.date ∧ exSumRow2.service = exSumRow1.service)
    ∧ ((liaison_summary [exSumRow1, exSumRow2] true).map SummaryRow.liaison =
        [if strLe exSumRow1.departure exSumRow1.arrival then
           exSumRow1.departure ++ pairSep ++ exSumRow1.arrival
         else exSumRow1.arrival ++ pairSep ++ exSumRow1.departure]
      ∧ (liaison_summary [exSumRow1, exSumRow2] true).map SummaryRow.planned =
          [fillZ exSumRow1.planned + fillZ exSumRow2.planned]
      ∧ (liaison_summary [exSumRow1, exSumRow2] true).map SummaryRow.canceled =
          [fillZ exSumRow1.canceled + fillZ exSumRow2.canceled]
      ∧ (liaison_summary [exSumRow1, exSumRow2] true).map SummaryRow.circulated =
          [fillZ exSumRow1.circulated + fillZ exSumRow2.circulated]
      ∧ (liaison_summary [exSumRow1, exSumRow2] true).map SummaryRow.late_arr_count =
          [fillZ exSumRow1.late_arr_count + fillZ exSumRow2.late_arr_count]) :=
  ⟨⟨rfl, rfl, rfl, rfl⟩, c5_bidirectional_merge exSumRow1 exSumRow2 rfl rfl rfl rfl⟩

/-- C1 (corrected): `liaison_ranking` sorts the grouped liaisons ascending by
the chosen metric except for on-time percentage, which it sorts descending;
under the metric's goodness reading (higher on-time is better, lower delay or
cancel rate is better, an undefined metric sorts last) the sorted table is
therefore strongest-first, so `head(N)` (the first returned table) holds the
strongest groups and `tail(N)` the weakest — the opposite of the claimed
"head = weakest / tail = strongest". -/
theorem c1_ranking_sorted_best_first (df : List Row) (metric : String) (bi : Bool) (n : ℕ) :
    List.Sorted (if metricCol metric = colOnTime then rmDesc else rmAsc) (rankedSorted df metric bi)
    ∧ (liaison_ranking df metric bi n).1 = (rankedSorted df metric bi).take n
    ∧ (liaison_ranking df metric bi n).2 = lastN (rankedSorted df metric bi) n
    ∧ ∀ x ∈ (liaison_ranking df metric bi n).1, ∀ y ∈ (liaison_ranking df metric bi n).2,
        (if metricCol metric = colOnTime then rmDesc else rmAsc) x y
          ∨ y ∈ (liaison_ranking df metric bi n).1 := by
  have hsorted : List.Sorted (if metricCol metric = colOnTime then rmDesc else rmAsc)
      (rankedSorted df metric bi) := by
    by_cases hcol : metricCol metric = colOnTime
    · rw [if_pos hcol]
      unfold rankedSorted
      rw [if_pos hcol]
      exact List.sorted_insertionSort rmDesc _
    · rw [if_neg hcol]
      unfold rankedSorted
      rw [if_neg hcol]
      exact List.sorted_insertionSort rmAsc _
  have hempty : df.isEmpty = true → rankedSorted df metric bi = [] := by
    intro hdf
    have hnil : df = [] := List.isEmpty_iff.mp hdf
    subst hnil
    unfold rankedSorted groupedRank sortedKeys
    by_cases hcol : metricCol metric = colOnTime <;> simp [hcol]
  have htop : (liaison_ranking df metric bi n).1 = (rankedSorted df metric bi).take n := by
    unfold liaison_ranking
    by_cases hdf : df.isEmpty
    · rw [if_pos hdf, hempty hdf]
      simp
    · rw [if_neg hdf]
  have htail : (liaison_ranking df metric bi n).2 = lastN (rankedSorted df metric bi) n := by
    unfold liaison_ranking
    by_cases hdf : df.isEmpty
    · rw [if_pos hdf, hempty hdf]
      simp [lastN]
    · rw [if_neg hdf]
  refine ⟨hsorted, htop, htail, ?_⟩
  intro x hx y hy
  rw [htop] at hx
  rw [htail] at hy
  rw [htop]
  exact pairwise_take_lastN hsorted n x hx y hy

/-- Counterexample to C1 as stated: with the cancel-rate metric on two
liaisons of cancel rate 10 and 50, `head(1)` holds the rate-10 liaison — the
strongest group, not the weakest (the weakest has rate 50, which sits in
`tail(1)`). -/
theorem c1_head_weakest_counterexample :
    (liaison_ranking exRankRows metricCancelName false 1).1.map RankRow.cancel_rate_pct
      = [some 10]
    ∧ (liaison_ranking exRankRows metricCancelName false 1).2.map RankRow.cancel_rate_pct
      = [some 50]
    ∧ ¬ ((50 : ℚ) ≤ 10) := by
  refine ⟨?_, ?_, by norm_num⟩ <;>
    norm_num +decide [liaison_ranking, rankedSorted, groupedRank, sortedKeys, aggRank,
      metricValOf, metricCol, metricCancelName, metricOnTimeName, metricAvgDelayName,
      colCancel, colOnTime, colAvgDelay, rankingKey, exRankRows, baseRow, sumZ, fillZ,
      meanQ, onTimeOfSums, cancelOfSums, List.insertionSort, List.orderedInsert,
      rmAsc, rmDesc, optLeNL, optGeNL, lastN, List.filter_cons, List.filter_nil,
      List.filterMap_cons, List.filterMap_nil, beq_iff_eq, List.dedup]

/-- C4 (corrected, amended): no tie-break by the data's natural row order
exists in the code. The metric sort runs on the grouped table, whose rows
pandas `groupby` emits in ascending liaison-key order regardless of the
input's row order — its key column is exactly the sorted deduplicated key
list, so it is sorted by key — and `sort_values` (default unstable
quicksort) guarantees only an order-respecting permutation of those grouped
rows, so the ranking output is a permutation of the key-sorted grouped
table, with no rule linking tied groups to their first appearance in the
input. -/
theorem c4_no_input_order_tiebreak (df : List Row) (metric : String) (bi : Bool) :
    (groupedRank df metric bi).map RankRow.liaison
      = List.insertionSort strLe (df.map (rankingKey bi)).dedup
    ∧ List.Sorted strLe ((groupedRank df metric bi).map RankRow.liaison)
    ∧ (rankedSorted df metric bi).Perm (groupedRank df metric bi) := by
  have hkeys : (groupedRank df metric bi).map RankRow.liaison
      = List.insertionSort strLe (df.map (rankingKey bi)).dedup := by
    unfold groupedRank sortedKeys
    rw [List.map_map]
    calc (List.insertionSort strLe (df.map (rankingKey bi)).dedup).map
          (RankRow.liaison ∘ fun k =>
            aggRank (metricCol metric) k (df.filter (fun r => rankingKey bi r == k)))
        = (List.insertionSort strLe (df.map (rankingKey bi)).dedup).map id :=
          List.map_congr_left (fun k _ => rfl)
      _ = List.insertionSort strLe (df.map (rankingKey bi)).dedup := List.map_id _
  refine ⟨hkeys, ?_, ?_⟩
  · rw [hkeys]
    exact List.sorted_insertionSort strLe _
  · unfold rankedSorted
    by_cases hcol : metricCol metric = colOnTime
    · rw [if_pos hcol]
      exact List.perm_insertionSort rmDesc _
    · rw [if_neg hcol]
      exact List.perm_insertionSort rmAsc _

/-- Counterexample to C4 as stated: two liaisons tied at on-time 90 whose
first-appearance order in the input is B → Z then A → Z come out of the
ranking sort in key order A → Z then B → Z, not in input order. -/
theorem c4_input_order_counterexample :
    (rankedSorted exTieRows metricOnTimeName false).map RankRow.liaison = ["A → Z", "B → Z"]
    ∧ exTieRows.map Row.liaison = ["B → Z", "A → Z"]
    ∧ (groupedRank exTieRows metricOnTimeName false).map RankRow.rank_metric
        = [some 90, some 90]
    ∧ (["A → Z", "B → Z"] : List String) ≠ ["B → Z", "A → Z"] := by
  refine ⟨?_, by simp [exTieRows, baseRow], ?_, by decide⟩ <;>
    norm_num +decide [rankedSorted, groupedRank, sortedKeys, aggRank, metricValOf,
      metricCol, metricOnTimeName, metricAvgDelayName, metricCancelName, colCancel,
      colOnTime, colAvgDelay, rankingKey, exTieRows, baseRow, sumZ, fillZ, meanQ,
      onTimeOfSums, cancelOfSums, List.insertionSort, List.orderedInsert, rmAsc, rmDesc,
      optLeNL, optGeNL, List.filter_cons, List.filter_nil, List.filterMap_cons,
      List.filterMap_nil, beq_iff_eq, List.dedup]

/-- C3 (corrected, amended): every aggregation operation applied to zero
filtered rows returns an empty result, and in this total embedding no
operation can raise; the KPI snapshot, monthly series, duration
small-multiples, liaison summary, cause composition and severity profile
keep their normal output's column names on the empty branch, but
`liaison_ranking` and `liaison_cause_dominance_summary` return bare
`pd.DataFrame()` values with no columns at all. -/
theorem c3_empty_input_closure :
    kpis_overview [] =
      { on_time_pct := none, cancel_rate_pct := none, avg_arr_delay_delayed := none }
    ∧ kpis_overview_keys [] = [colOnTime, colCancel, avgDelayKeyName]
    ∧ monthly_series [] = []
    ∧ monthly_series_cols [] = [dateCol, colOnTime, colCancel]
    ∧ duration_small_multiples [] = []
    ∧ duration_small_multiples_cols [] = [dateCol, durationClassCol, colOnTime]
    ∧ (∀ (metric : String) (bi : Bool) (n : ℕ), liaison_ranking [] metric bi n = ([], []))
    ∧ liaison_ranking_cols [] = []
    ∧ (∀ bi : Bool, liaison_summary [] bi = [])
    ∧ liaison_summary_cols [] =
        [liaisonCol, serviceCol, durationClassCol, plannedCol, canceledCol, circulatedCol,
         lateArrCountCol, colOnTime, colCancel, lateRateCol, colAvgDelay]
    ∧ (∀ (bd : String) (tn : Option ℕ), causes_composition [] bd tn = [])
    ∧ causes_composition_cols [] = [groupCol, causeCol, pctCol]
    ∧ severity_profile_by_cause [] = []
    ∧ severity_profile_by_cause_cols [] = [causeCol, bucketCol, pctCol]
    ∧ (∀ bi : Bool, liaison_cause_dominance_summary [] bi = [])
    ∧ liaison_cause_dominance_summary_cols [] = [] := by
  refine ⟨rfl, rfl, rfl, rfl, rfl, rfl, ?_, rfl, ?_, rfl, ?_, rfl, rfl, rfl, ?_, rfl⟩
  · intro metric bi n
    simp [liaison_ranking]
  · intro bi
    simp [liaison_summary]
  · intro bd tn
    simp [causes_composition]
  · intro bi
    simp [liaison_cause_dominance_summary]

/-- Counterexample to C3 as stated: on the empty input `liaison_ranking`'s
tables carry no columns at all, while its normal output shape carries
eight. -/
theorem c3_ranking_empty_shape_counterexample :
    liaison_ranking_cols [] = []
    ∧ liaison_ranking_cols [baseRow]
        = [plannedCol, canceledCol, circulatedCol, lateArrCol, colAvgDelay,
           colOnTime, colCancel, rankMetricCol]
    ∧ ([] : List String) ≠
        [plannedCol, canceledCol, circulatedCol, lateArrCol, colAvgDelay,
         colOnTime, colCancel, rankMetricCol] := by
  exact ⟨rfl, rfl, by simp⟩

lemma sumZ_nonneg (f : Row → Option ℤ) {rows : List Row}
    (h : ∀ r ∈ rows, 0 ≤ fillZ (f r)) : 0 ≤ sumZ f rows := by
  unfold sumZ
  apply List.sum_nonneg
  intro x hx
  rcases List.mem_map.1 hx with ⟨r, hr, rfl⟩
  exact h r hr

lemma sumZ_mono (f g : Row → Option ℤ) {rows : List Row}
    (h : ∀ r ∈ rows, fillZ (f r) ≤ fillZ (g r)) : sumZ f rows ≤ sumZ g rows :=
  List.sum_le_sum h

lemma div_mul_100_bounds {a b : ℚ} (h0 : 0 ≤ a) (h1 : a ≤ b) (hb : 0 < b) :
    0 ≤ a / b * 100 ∧ a / b * 100 ≤ 100 := by
  constructor
  · exact mul_nonneg (div_nonneg h0 hb.le) (by norm_num)
  · have hd : a / b ≤ 1 := div_le_one_of_le h1 hb.le
    calc a / b * 100 ≤ 1 * 100 := mul_le_mul_of_nonneg_right hd (by norm_num)
      _ = 100 := one_mul 100

lemma onTimeOfSums_bounds {circ late : ℤ} (h0 : 0 ≤ late) (h1 : late ≤ circ) {v : ℚ}
    (hv : onTimeOfSums circ late = some v) : 0 ≤ v ∧ v ≤ 100 := by
  unfold onTimeOfSums at hv
  by_cases hc : 0 < circ
  · rw [if_pos hc] at hv
    rw [← Option.some.inj hv]
    refine div_mul_100_bounds ?_ ?_ ?_
    · exact_mod_cast sub_nonneg.mpr h1
    · exact_mod_cast sub_le_self circ h0
    · exact_mod_cast hc
  · rw [if_neg hc] at hv
    cases hv

lemma cancelOfSums_bounds {canc plan : ℤ} (h0 : 0 ≤ canc) (h1 : canc ≤ plan) {v : ℚ}
    (hv : cancelOfSums canc plan = some v) : 0 ≤ v ∧ v ≤ 100 := by
  unfold cancelOfSums at hv
  by_cases hc : 0 < plan
  · rw [if_pos hc] at hv
    rw [← Option.some.inj hv]
    exact div_mul_100_bounds (by exact_mod_cast h0) (by exact_mod_cast h1) (by exact_mod_cast hc)
  · rw [if_neg hc] at hv
    cases hv

lemma lateRateOfSums_bounds {late circ : ℤ} (h0 : 0 ≤ late) (h1 : late ≤ circ) {v : ℚ}
    (hv : lateRateOfSums late circ = some v) : 0 ≤ v ∧ v ≤ 100 := by
  unfold lateRateOfSums at hv
  by_cases hc : 0 < circ
  · rw [if_pos hc] at hv
    rw [← Option.some.inj hv]
    exact div_mul_100_bounds (by exact_mod_cast h0) (by exact_mod_cast h1) (by exact_mod_cast hc)
  · rw [if_neg hc] at hv
    cases hv

lemma onTime_group_bounds {rs : List Row}
    (h : ∀ r ∈ rs, 0 ≤ fillZ r.late_arr_count ∧ fillZ r.late_arr_count ≤ fillZ r.circulated)
    {v : ℚ} (hv : onTimeOfSums (sumZ Row.circulated rs) (sumZ Row.late_arr_count rs) = some v) :
    0 ≤ v ∧ v ≤ 100 :=
  onTimeOfSums_bounds (sumZ_nonneg _ (fun r hr => (h r hr).1))
    (sumZ_mono _ _ (fun r hr => (h r hr).2)) hv

lemma cancel_group_bounds {rs : List Row}
    (h : ∀ r ∈ rs, 0 ≤ fillZ r.canceled ∧ fillZ r.canceled ≤ fillZ r.planned)
    {v : ℚ} (hv : cancelOfSums (sumZ Row.canceled rs) (sumZ Row.planned rs) = some v) :
    0 ≤ v ∧ v ≤ 100 :=
  cancelOfSums_bounds (sumZ_nonneg _ (fun r hr => (h r hr).1))
    (sumZ_mono _ _ (fun r hr => (h r hr).2)) hv

lemma lateRate_group_bounds {rs : List Row}
    (h : ∀ r ∈ rs, 0 ≤ fillZ r.late_arr_count ∧ fillZ r.late_arr_count ≤ fillZ r.circulated)
    {v : ℚ} (hv : lateRateOfSums (sumZ Row.late_arr_count rs) (sumZ Row.circulated rs) = some v) :
    0 ≤ v ∧ v ≤ 100 :=
  lateRateOfSums_bounds (sumZ_nonneg _ (fun r hr => (h r hr).1))
    (sumZ_mono _ _ (fun r hr => (h r hr).2)) hv

lemma sum_map_mul_left_q {α : Type} (rs : List α) (w : α → ℚ) (b : ℚ) :
    (rs.map (fun r => b * w r)).sum = b * (rs.map w).sum := by
  induction rs with
  | nil => simp
  | cons a l ih => simp [ih, mul_add]

lemma weighted_sum_bounds {rs : List Row} (f : Row → ℚ) (w : Row → ℚ)
    (hw : ∀ r ∈ rs, 0 ≤ w r) (hf : ∀ r ∈ rs, 0 ≤ f r ∧ f r ≤ 100) :
    0 ≤ (rs.map (fun r => f r * w r)).sum ∧
      (rs.map (fun r => f r * w r)).sum ≤ 100 * (rs.map w).sum := by
  constructor
  · apply List.sum_nonneg
    intro x hx
    rcases List.mem_map.1 hx with ⟨r, hr, rfl⟩
    exact mul_nonneg (hf r hr).1 (hw r hr)
  · calc (rs.map (fun r => f r * w r)).sum
        ≤ (rs.map (fun r => 100 * w r)).sum := by
          refine List.sum_le_sum ?_
          intro r hr
          exact mul_le_mul_of_nonneg_right (hf r hr).2 (hw r hr)
      _ = 100 * (rs.map w).sum := sum_map_mul_left_q rs w 100

lemma causeNumSkip_eq_weighted (c : String) (rs : List Row) :
    causeNumSkip c rs = (rs.map (fun r => fillQ (causeGet c r) * wOf r)).sum := by
  unfold causeNumSkip
  refine congrArg List.sum (List.map_congr_left ?_)
  intro r _
  rcases h : causeGet c r with _ | p <;> simp [h, fillQ]

lemma wOf_nonneg {rs : List Row} (h : ∀ r ∈ rs, 0 ≤ fillZ r.late_arr_count) :
    ∀ r ∈ rs, 0 ≤ wOf r := by
  intro r hr
  unfold wOf
  exact_mod_cast h r hr

lemma causeShare_bounds {c : String} {rs : List Row}
    (hw : ∀ r ∈ rs, 0 ≤ fillZ r.late_arr_count)
    (hp : ∀ r ∈ rs, 0 ≤ fillQ (causeGet c r) ∧ fillQ (causeGet c r) ≤ 100)
    {v : ℚ} (hv : causeShare c rs = some v) : 0 ≤ v ∧ v ≤ 100 := by
  unfold causeShare at hv
  by_cases hz : sumW rs = 0
  · rw [if_pos hz] at hv
    cases hv
  · rw [if_neg hz] at hv
    rw [← Option.some.inj hv]
    have hwq := wOf_nonneg hw
    have hden0 : 0 ≤ sumW rs := List.sum_nonneg (by
      intro x hx
      rcases List.mem_map.1 hx with ⟨r, hr, rfl⟩
      exact hwq r hr)
    have hden : 0 < sumW rs := lt_of_le_of_ne hden0 (Ne.symm hz)
    have hb := weighted_sum_bounds (fun r => fillQ (causeGet c r)) wOf hwq hp
    rw [causeNumSkip_eq_weighted]
    constructor
    · exact div_nonneg hb.1 hden.le
    · rw [div_le_iff hden]
      exact hb.2

lemma roundHalfEven_nonneg {q : ℚ} (h : 0 ≤ q) : 0 ≤ roundHalfEven q := by
  have hfl : 0 ≤ ⌊q⌋ := Int.floor_nonneg.mpr h
  unfold roundHalfEven
  split_ifs <;> omega

lemma roundHalfEven_le {q : ℚ} {B : ℤ} (h : q ≤ (B : ℚ)) : roundHalfEven q ≤ B := by
  have hfl : ⌊q⌋ ≤ B := by
    have h2 := Int.floor_le_floor h
    rwa [Int.floor_intCast] at h2
  unfold roundHalfEven
  split_ifs with h1 h2 h3
  · exact hfl
  · have hne : ⌊q⌋ ≠ B := by
      intro he
      apply h1
      have hr : q - (⌊q⌋ : ℚ) ≤ 0 := by
        rw [he]
        linarith
      linarith
    omega
  · exact hfl
  · have hne : ⌊q⌋ ≠ B := by
      intro he
      apply h1
      have hr : q - (⌊q⌋ : ℚ) ≤ 0 := by
        rw [he]
        linarith
      linarith
    omega

lemma round1_bounds {q : ℚ} (h0 : 0 ≤ q) (h1 : q ≤ 10000) :
    0 ≤ round1 q ∧ round1 q ≤ 10000 := by
  unfold round1
  have hn : 0 ≤ roundHalfEven (q * 10) := roundHalfEven_nonneg (by linarith)
  have hle : roundHalfEven (q * 10) ≤ 100000 := roundHalfEven_le (by push_cast; linarith)
  constructor
  · have : (0 : ℚ) ≤ ((roundHalfEven (q * 10) : ℤ) : ℚ) := by exact_mod_cast hn
    linarith
  · have : ((roundHalfEven (q * 10) : ℤ) : ℚ) ≤ 100000 := by exact_mod_cast hle
    linarith

/-- C2 (corrected, amended): under the claim's hypotheses (pct_cause cells in
[0,100] and non-negative counts) strengthened by the monotone per-row
invariants `late_arr_count ≤ circulated` and `canceled ≤ planned` — which the
pipeline checks but never enforces, and without which on-time % can be
negative and cancel rate can exceed 100 — the on-time, cancel-rate and
late-rate percentages of the KPI snapshot, the monthly series, the duration
small-multiples and the liaison summary lie in [0,100] whenever defined, and
so do the weighted-mean cause shares of `causes_composition`; the
severity-profile shares, however, multiply an already-percent-scaled weighted
mean by 100 once more, and are only bounded by [0,10000], not [0,100]. -/
theorem c2_rate_boundedness (df : List Row)
    (hcnt : ∀ r ∈ df, 0 ≤ fillZ r.planned ∧ 0 ≤ fillZ r.canceled ∧ 0 ≤ fillZ r.circulated ∧
      0 ≤ fillZ r.late_arr_count ∧ 0 ≤ fillZ r.late_over_15_count ∧
      0 ≤ fillZ r.late_over_30_count ∧ 0 ≤ fillZ r.late_over_60_count)
    (hchain : ∀ r ∈ df, fillZ r.late_arr_count ≤ fillZ r.circulated ∧
      fillZ r.canceled ≤ fillZ r.planned)
    (hpct : ∀ r ∈ df, ∀ c ∈ causeCols, 0 ≤ fillQ (causeGet c r) ∧ fillQ (causeGet c r) ≤ 100) :
    (∀ v, (kpis_overview df).on_time_pct = some v → 0 ≤ v ∧ v ≤ 100)
    ∧ (∀ v, (kpis_overview df).cancel_rate_pct = some v → 0 ≤ v ∧ v ≤ 100)
    ∧ (∀ e ∈ monthly_series df, (∀ v, e.on_time_pct = some v → 0 ≤ v ∧ v ≤ 100) ∧
        (∀ v, e.cancel_rate_pct = some v → 0 ≤ v ∧ v ≤ 100))
    ∧ (∀ e ∈ duration_small_multiples df, ∀ v, e.on_time_pct = some v → 0 ≤ v ∧ v ≤ 100)
    ∧ (∀ bi : Bool, ∀ e ∈ liaison_summary df bi,
        (∀ v, e.on_time_pct = some v → 0 ≤ v ∧ v ≤ 100) ∧
        (∀ v, e.cancel_rate_pct = some v → 0 ≤ v ∧ v ≤ 100) ∧
        (∀ v, e.late_rate_pct = some v → 0 ≤ v ∧ v ≤ 100))
    ∧ (∀ (bd : String) (tn : Option ℕ), ∀ e ∈ causes_composition df bd tn,
        ∀ v, e.pct = some v → 0 ≤ v ∧ v ≤ 100)
    ∧ (∀ e ∈ severity_profile_by_cause df, ∀ v, e.pct = some v → 0 ≤ v ∧ v ≤ 10000) := by
  have hOT : ∀ rs : List Row, (∀ r ∈ rs, r ∈ df) →
      ∀ v, onTimeOfSums (sumZ Row.circulated rs) (sumZ Row.late_arr_count rs) = some v →
      0 ≤ v ∧ v ≤ 100 := by
    intro rs hsub v hv
    refine onTime_group_bounds ?_ hv
    intro r hr
    exact ⟨(hcnt r (hsub r hr)).2.2.2.1, (hchain r (hsub r hr)).1⟩
  have hCR : ∀ rs : List Row, (∀ r ∈ rs, r ∈ df) →
      ∀ v, cancelOfSums (sumZ Row.canceled rs) (sumZ Row.planned rs) = some v →
      0 ≤ v ∧ v ≤ 100 := by
    intro rs hsub v hv
    refine cancel_group_bounds ?_ hv
    intro r hr
    exact ⟨(hcnt r (hsub r hr)).2.1, (hchain r (hsub r hr)).2⟩
  have hLR : ∀ rs : List Row, (∀ r ∈ rs, r ∈ df) →
      ∀ v, lateRateOfSums (sumZ Row.late_arr_count rs) (sumZ Row.circulated rs) = some v →
      0 ≤ v ∧ v ≤ 100 := by
    intro rs hsub v hv
    refine lateRate_group_bounds ?_ hv
    intro r hr
    exact ⟨(hcnt r (hsub r hr)).2.2.2.1, (hchain r (hsub r hr)).1⟩
  have hCS : ∀ (c : String), c ∈ causeCols → ∀ rs : List Row, (∀ r ∈ rs, r ∈ df) →
      ∀ v, causeShare c rs = some v → 0 ≤ v ∧ v ≤ 100 := by
    intro c hc rs hsub v hv
    refine causeShare_bounds ?_ ?_ hv
    · intro r hr
      exact (hcnt r (hsub r hr)).2.2.2.1
    · intro r hr
      exact hpct r (hsub r hr) c hc
  refine ⟨?_, ?_, ?_, ?_, ?_, ?_, ?_⟩
  · intro v hv
    cases df with
    | nil => cases hv
    | cons a l => exact hOT (a :: l) (fun r hr => hr) v hv
  · intro v hv
    cases df with
    | nil => cases hv
    | cons a l => exact hCR (a :: l) (fun r hr => hr) v hv
  · intro e he
    cases df with
    | nil => simp [monthly_series] at he
    | cons a l =>
      simp only [monthly_series, List.isEmpty_cons, Bool.false_eq_true, if_false,
        List.mem_map] at he
      obtain ⟨m, _, rfl⟩ := he
      constructor
      · intro v hv
        exact hOT _ (fun r hr => List.mem_of_mem_filter hr) v hv
      · intro v hv
        exact hCR _ (fun r hr => List.mem_of_mem_filter hr) v hv
  · intro e he
    cases df with
    | nil => simp [duration_small_multiples] at he
    | cons a l =>
      simp only [duration_small_multiples, List.isEmpty_cons, Bool.false_eq_true, if_false,
        List.mem_map] at he
      obtain ⟨k, _, rfl⟩ := he
      intro v hv
      exact hOT _ (fun r hr => List.mem_of_mem_filter hr) v hv
  · intro bi e he
    cases df with
    | nil => simp [liaison_summary] at he
    | cons a l =>
      simp only [liaison_summary, List.isEmpty_cons, Bool.false_eq_true, if_false,
        List.mem_map] at he
      obtain ⟨k, _, rfl⟩ := he
      refine ⟨?_, ?_, ?_⟩
      · intro v hv
        exact hOT _ (fun r hr => List.mem_of_mem_filter hr) v hv
      · intro v hv
        exact hCR _ (fun r hr => List.mem_of_mem_filter hr) v hv
      · intro v hv
        exact hLR _ (fun r hr => List.mem_of_mem_filter hr) v hv
  · intro bd tn e he
    cases df with
    | nil => simp [causes_composition] at he
    | cons a l =>
      have hmelt : ∀ keep : List GKey,
          e ∈ causeCols.flatMap (fun c => keep.map (fun g =>
            CompRow.mk g (causeLabelComp c) (causeShare c (groupRows (a :: l) bd g)))) →
          ∀ v, e.pct = some v → 0 ≤ v ∧ v ≤ 100 := by
        intro keep hmem v hv
        rcases List.mem_flatMap.1 hmem with ⟨c, hc, hec⟩
        rcases List.mem_map.1 hec with ⟨g, _, rfl⟩
        exact hCS c hc _ (fun r hr => List.mem_of_mem_filter hr) v hv
      simp only [causes_composition, List.isEmpty_cons, Bool.false_eq_true, if_false] at he
      by_cases hbd : bd = breakdownLiaison
      · rw [if_pos hbd] at he
        exact hmelt _ ((List.mem_insertionSort _).1 he)
      · rw [if_neg hbd] at he
        exact hmelt _ he
  · intro e he
    cases df with
    | nil => simp [severity_profile_by_cause] at he
    | cons a l =>
      simp only [severity_profile_by_cause, List.isEmpty_cons, Bool.false_eq_true, if_false] at he
      rcases List.mem_flatMap.1 he with ⟨b, hb, heb⟩
      rcases List.mem_map.1 heb with ⟨c, hc, rfl⟩
      intro v hv
      simp only at hv
      by_cases hden : (0 : ℚ) < ((sumZ (bucketGet b.2) (a :: l) : ℤ) : ℚ)
      · rw [if_pos hden] at hv
        rw [← Option.some.inj hv]
        have hbw : ∀ r ∈ (a :: l), (0 : ℚ) ≤ ((fillZ (bucketGet b.2 r) : ℤ) : ℚ) := by
          intro r hr
          have h7 := hcnt r hr
          simp only [bucketPairs, List.mem_cons, List.not_mem_nil, or_false] at hb
          rcases hb with rfl | rfl | rfl
          · exact_mod_cast h7.2.2.2.2.1
          · exact_mod_cast h7.2.2.2.2.2.1
          · exact_mod_cast h7.2.2.2.2.2.2
        have hnum := weighted_sum_bounds (fun r => fillQ (causeGet c r))
          (fun r => ((fillZ (bucketGet b.2 r) : ℤ) : ℚ)) hbw
          (fun r hr => hpct r hr c hc)
        have hden_eq : ((sumZ (bucketGet b.2) (a :: l) : ℤ) : ℚ) =
            ((a :: l).map (fun r => ((fillZ (bucketGet b.2 r) : ℤ) : ℚ))).sum := by
          unfold sumZ
          rw [Int.cast_list_sum, List.map_map]
          rfl
        have hq0 : 0 ≤ ((a :: l).map (fun r =>
            fillQ (causeGet c r) * ((fillZ (bucketGet b.2 r) : ℤ) : ℚ))).sum /
            ((sumZ (bucketGet b.2) (a :: l) : ℤ) : ℚ) * 100 :=
          mul_nonneg (div_nonneg hnum.1 hden.le) (by norm_num)
        have hq1 : ((a :: l).map (fun r =>
            fillQ (causeGet c r) * ((fillZ (bucketGet b.2 r) : ℤ) : ℚ))).sum /
            ((sumZ (bucketGet b.2) (a :: l) : ℤ) : ℚ) * 100 ≤ 10000 := by
          have hsh : ((a :: l).map (fun r =>
              fillQ (causeGet c r) * ((fillZ (bucketGet b.2 r) : ℤ) : ℚ))).sum /
              ((sumZ (bucketGet b.2) (a :: l) : ℤ) : ℚ) ≤ 100 := by
            rw [div_le_iff hden, hden_eq]
            exact hnum.2
          calc _ ≤ (100 : ℚ) * 100 := mul_le_mul_of_nonneg_right hsh (by norm_num)
            _ = 10000 := by norm_num
        exact round1_bounds hq0 hq1
      · rw [if_neg hden] at hv
        cases hv

/-- Counterexample to C2 as stated: on a single row satisfying all of the
claim's hypotheses (cause shares in [0,100], non-negative counts), the
severity profile's first entry — cause External, bucket ≥15 — carries the
pct_cause-derived share 4000, far outside [0,100], because the code
multiplies the already-percent-scaled weighted mean (40) by 100 again. -/
theorem c2_severity_share_counterexample :
    ((severity_profile_by_cause exBoundedRows).map SevRow.pct).head? = some (some 4000)
    ∧ ¬ ((4000 : ℚ) ≤ 100) := by
  constructor
  · norm_num +decide [severity_profile_by_cause, exBoundedRows, exBoundedRow, baseRow,
      bucketPairs, bucketGet, causeCols, causeGet, causeLabel, bucket15Name, bucket30Name,
      bucket60Name, bucket15Col, bucket30Col, bucket60Col, causeExternalCol, causeInfraCol,
      causeTrafficCol, causeRollingstockCol, causeStationReuseCol, causePassengersCol,
      sumZ, fillZ, fillQ, round1, roundHalfEven, List.flatMap_cons, List.flatMap_nil]
  · norm_num

/-- Witness of C2's amended statement at a concrete in-bounds row. -/
theorem c2_rate_boundedness_witness :
    ((∀ r ∈ exBoundedRows, 0 ≤ fillZ r.planned ∧ 0 ≤ fillZ r.canceled ∧
        0 ≤ fillZ r.circulated ∧ 0 ≤ fillZ r.late_arr_count ∧
        0 ≤ fillZ r.late_over_15_count ∧ 0 ≤ fillZ r.late_over_30_count ∧
        0 ≤ fillZ r.late_over_60_count)
      ∧ (∀ r ∈ exBoundedRows, fillZ r.late_arr_count ≤ fillZ r.circulated ∧
          fillZ r.canceled ≤ fillZ r.planned)
      ∧ (∀ r ∈ exBoundedRows, ∀ c ∈ causeCols,
          0 ≤ fillQ (causeGet c r) ∧ fillQ (causeGet c r) ≤ 100))
    ∧ ((∀ v, (kpis_overview exBoundedRows).on_time_pct = some v → 0 ≤ v ∧ v ≤ 100)
      ∧ (∀ v, (kpis_overview exBoundedRows).cancel_rate_pct = some v → 0 ≤ v ∧ v ≤ 100)
      ∧ (∀ e ∈ monthly_series exBoundedRows,
          (∀ v, e.on_time_pct = some v → 0 ≤ v ∧ v ≤ 100) ∧
          (∀ v, e.cancel_rate_pct = some v → 0 ≤ v ∧ v ≤ 100))
      ∧ (∀ e ∈ duration_small_multiples exBoundedRows,
          ∀ v, e.on_time_pct = some v → 0 ≤ v ∧ v ≤ 100)
      ∧ (∀ bi : Bool, ∀ e ∈ liaison_summary exBoundedRows bi,
          (∀ v, e.on_time_pct = some v → 0 ≤ v ∧ v ≤ 100) ∧
          (∀ v, e.cancel_rate_pct = some v → 0 ≤ v ∧ v ≤ 100) ∧
          (∀ v, e.late_rate_pct = some v → 0 ≤ v ∧ v ≤ 100))
      ∧ (∀ (bd : String) (tn : Option ℕ), ∀ e ∈ causes_composition exBoundedRows bd tn,
          ∀ v, e.pct = some v → 0 ≤ v ∧ v ≤ 100)
      ∧ (∀ e ∈ severity_profile_by_cause exBoundedRows,
          ∀ v, e.pct = some v → 0 ≤ v ∧ v ≤ 10000)) := by
  have h1 : ∀ r ∈ exBoundedRows, 0 ≤ fillZ r.planned ∧ 0 ≤ fillZ r.canceled ∧
      0 ≤ fillZ r.circulated ∧ 0 ≤ fillZ r.late_arr_count ∧
      0 ≤ fillZ r.late_over_15_count ∧ 0 ≤ fillZ r.late_over_30_count ∧
      0 ≤ fillZ r.late_over_60_count := by
    intro r hr
    simp only [exBoundedRows, List.mem_singleton] at hr
    subst hr
    norm_num [exBoundedRow, baseRow, fillZ]
  have h2 : ∀ r ∈ exBoundedRows, fillZ r.late_arr_count ≤ fillZ r.circulated ∧
      fillZ r.canceled ≤ fillZ r.planned := by
    intro r hr
    simp only [exBoundedRows, List.mem_singleton] at hr
    subst hr
    norm_num [exBoundedRow, baseRow, fillZ]
  have h3 : ∀ r ∈ exBoundedRows, ∀ c ∈ causeCols,
      0 ≤ fillQ (causeGet c r) ∧ fillQ (causeGet c r) ≤ 100 := by
    intro r hr c hc
    simp only [exBoundedRows, List.mem_singleton] at hr
    subst hr
    simp only [causeCols, List.mem_cons, List.not_mem_nil, or_false] at hc
    rcases hc with rfl | rfl | rfl | rfl | rfl | rfl <;>
      norm_num +decide [causeGet, causeExternalCol, causeInfraCol, causeTrafficCol,
        causeRollingstockCol, causeStationReuseCol, causePassengersCol, exBoundedRow,
        baseRow, fillQ]
  exact ⟨⟨h1, h2, h3⟩, c2_rate_boundedness exBoundedRows h1 h2 h3⟩

/-- C8 (corrected): per-liaison IQR outlier flagging is characterized by the
code's actual cutoff `Q1 − k·(IQR + 1e-9)` — not the claimed `Q1 − k·IQR` —
applied to the liaison's own monthly-mean history, with liaisons of at most
one distinct value never flagged; on the monthly values
90, 91, 89, 92, 90, 91, 20 it flags exactly the month with value 20. -/
theorem c8_outlier_months_iqr_rule :
    (∀ (rows : List Row) (k : ℚ) (m : ℕ) (L : String) (v : ℚ),
      (m, L, v) ∈ outlier_months rows k ↔
        ((L, m, v) ∈ monthlyMeans rows ∧ 1 < (historyOf rows L).dedup.length ∧
         v < iqrLower (historyOf rows L) k))
    ∧ outlier_months exOutlRows (3/2) = [(7, "L", 20)] := by
  constructor
  · intro rows k m L v
    simp only [outlier_months]
    rw [List.mem_insertionSort]
    constructor
    · intro h
      rcases List.mem_map.1 h with ⟨x, hx, hxe⟩
      rcases List.mem_filter.1 hx with ⟨hgrp, hcond⟩
      rw [Bool.and_eq_true, decide_eq_true_eq, decide_eq_true_eq] at hcond
      have hxeq : x = (L, m, v) := by
        obtain ⟨h1, h2, h3⟩ : x.2.1 = m ∧ x.1 = L ∧ x.2.2 = v := by
          simpa [Prod.ext_iff] using hxe
        rw [← h1, ← h2, ← h3]
      rw [hxeq] at hgrp hcond
      exact ⟨hgrp, hcond.1, hcond.2⟩
    · rintro ⟨hgrp, hdist, hlt⟩
      refine List.mem_map.2 ⟨(L, m, v), ?_, rfl⟩
      refine List.mem_filter.2 ⟨hgrp, ?_⟩
      rw [Bool.and_eq_true, decide_eq_true_eq, decide_eq_true_eq]
      exact ⟨hdist, hlt⟩
  · have hmm : monthlyMeans exOutlRows =
        [("L", 1, 90), ("L", 2, 91), ("L", 3, 89), ("L", 4, 92),
         ("L", 5, 90), ("L", 6, 91), ("L", 7, 20)] := by
      norm_num +decide [monthlyMeans, exOutlRows, baseRow, onTimeRow, liaisonMonthLe, strLt,
        List.insertionSort, List.orderedInsert, List.filter_cons, List.filter_nil,
        List.filterMap_cons, List.filterMap_nil, beq_iff_eq, Bool.and_eq_true, List.dedup]
    have hhist : historyOf exOutlRows "L" = [90, 91, 89, 92, 90, 91, 20] := by
      norm_num +decide [historyOf, hmm, List.filterMap_cons, List.filterMap_nil]
    have hlow : iqrLower [(90 : ℚ), 91, 89, 92, 90, 91, 20] (3/2) = 349/4 - 3/2000000000 := by
      norm_num [iqrLower, iqrEps, quantileLinear, List.insertionSort, List.orderedInsert,
        List.getD]
      try simp only [Int.reduceToNat]
      try norm_num
    have hded : ([(90 : ℚ), 91, 89, 92, 90, 91, 20] : List ℚ).dedup.length = 5 := by
      norm_num [List.dedup]
    simp only [outlier_months, hmm]
    norm_num +decide [List.filter_cons, List.filter_nil, dateLiaisonLe, strLe,
      List.insertionSort, List.orderedInsert, hhist, hlow, hded, decide_eq_true_eq,
      Bool.and_eq_true]

/-- Counterexample to C8 as stated: liaison M's month-1 mean 87 − 10⁻⁹ lies
strictly below Q1 − 1.5·IQR = 87 of its history with five distinct values,
so the claim requires it to be flagged, yet `outlier_months` flags nothing
because the code's cutoff is Q1 − 1.5·(IQR + 10⁻⁹). -/
theorem c8_epsilon_cutoff_counterexample :
    outlier_months exEpsRows (3/2) = []
    ∧ ("M", 1, (86999999999 : ℚ)/1000000000) ∈ monthlyMeans exEpsRows
    ∧ 1 < (historyOf exEpsRows "M").dedup.length
    ∧ (86999999999 : ℚ)/1000000000 <
        quantileLinear (historyOf exEpsRows "M") (1/4) -
          (3/2) * (quantileLinear (historyOf exEpsRows "M") (3/4) -
            quantileLinear (historyOf exEpsRows "M") (1/4)) := by
  have hmm : monthlyMeans exEpsRows =
      [("M", 1, 86999999999/1000000000), ("M", 2, 90), ("M", 3, 91),
       ("M", 4, 92), ("M", 5, 93)] := by
    norm_num +decide [monthlyMeans, exEpsRows, baseRow, onTimeRow, liaisonMonthLe, strLt,
      List.insertionSort, List.orderedInsert, List.filter_cons, List.filter_nil,
      List.filterMap_cons, List.filterMap_nil, beq_iff_eq, Bool.and_eq_true, List.dedup]
  have hhist : historyOf exEpsRows "M" =
      [86999999999/1000000000, 90, 91, 92, 93] := by
    norm_num +decide [historyOf, hmm, List.filterMap_cons, List.filterMap_nil]
  have hlow : iqrLower [(86999999999 : ℚ)/1000000000, 90, 91, 92, 93] (3/2)
      = 87 - 3/2000000000 := by
    norm_num [iqrLower, iqrEps, quantileLinear, List.insertionSort, List.orderedInsert,
      List.getD]
    try simp only [Int.reduceToNat]
    try norm_num
  have hded : ([(86999999999 : ℚ)/1000000000, 90, 91, 92, 93] : List ℚ).dedup.length = 5 := by
    norm_num [List.dedup]
  have hq1 : quantileLinear [(86999999999 : ℚ)/1000000000, 90, 91, 92, 93] (1/4) = 90 := by
    norm_num [quantileLinear, List.insertionSort, List.orderedInsert, List.getD]
    try simp only [Int.reduceToNat]
    try norm_num
  have hq3 : quantileLinear [(86999999999 : ℚ)/1000000000, 90, 91, 92, 93] (3/4) = 92 := by
    norm_num [quantileLinear, List.insertionSort, List.orderedInsert, List.getD]
    try simp only [Int.reduceToNat]
    try norm_num
  refine ⟨?_, ?_, ?_, ?_⟩
  · simp only [outlier_months, hmm]
    norm_num +decide [List.filter_cons, List.filter_nil, dateLiaisonLe, strLe,
      List.insertionSort, List.orderedInsert, hhist, hlow, hded, decide_eq_true_eq,
      Bool.and_eq_true]
  · rw [hmm]
    norm_num
  · rw [hhist, hded]
    norm_num
  · rw [hhist, hq1, hq3]
    norm_num
